import Mathlib

/-!
Shallow embedding of the numerical core of the `snp_tool` impedance-matching
program (S-parameter / ABCD conversion, cascading, metrics, grid search,
bandwidth optimizer, weighted objective), with theorems settling the
specification claims.  Floating-point arithmetic is modelled over `ℝ`/`ℂ`;
numpy arrays over `List`; Python `float("inf")` results over `Option`
(`none` = infinity); raised exceptions over `Except`.
-/

namespace SnpTool

open scoped Classical

/-- One frequency point of a two-port S-parameter quadruple. -/
@[ext]
structure SQuad where
  s11 : ℂ
  s12 : ℂ
  s21 : ℂ
  s22 : ℂ

/-- A 2×2 complex ABCD (transmission) matrix at one frequency point. -/
@[ext]
structure ABCDMat where
  A : ℂ
  B : ℂ
  C : ℂ
  D : ℂ

/-- `np.where(np.abs(z) < eps, eps, z)` applied to one entry: the
numerical-stability clamp used throughout `cascader.py`. -/
noncomputable def clampC (eps : ℝ) (z : ℂ) : ℂ :=
  if Complex.abs z < eps then (eps : ℂ) else z

/-- `cascader.s_to_abcd` at one frequency point (the numpy code is
element-wise over frequency).  `denom = 2*s21`, clamped at `1e-12`. -/
noncomputable def s_to_abcd_pt (s : SQuad) (z0 : ℝ) : ABCDMat :=
  let denom := clampC 1e-12 (2 * s.s21)
  { A := ((1 + s.s11) * (1 - s.s22) + s.s12 * s.s21) / denom
    B := (z0 : ℂ) * ((1 + s.s11) * (1 + s.s22) - s.s12 * s.s21) / denom
    C := (1 / (z0 : ℂ)) * ((1 - s.s11) * (1 - s.s22) - s.s12 * s.s21) / denom
    D := ((1 - s.s11) * (1 + s.s22) + s.s12 * s.s21) / denom }

/-- `cascader.abcd_to_s` at one frequency point.
`denom = A + B/z0 + C*z0 + D`, clamped at `1e-12`. -/
noncomputable def abcd_to_s_pt (m : ABCDMat) (z0 : ℝ) : SQuad :=
  let denom := clampC 1e-12 (m.A + m.B / (z0 : ℂ) + m.C * (z0 : ℂ) + m.D)
  { s11 := (m.A + m.B / (z0 : ℂ) - m.C * (z0 : ℂ) - m.D) / denom
    s12 := 2 * (m.A * m.D - m.B * m.C) / denom
    s21 := 2 / denom
    s22 := (-m.A + m.B / (z0 : ℂ) - m.C * (z0 : ℂ) + m.D) / denom }

theorem clampC_of_ge {eps : ℝ} {z : ℂ} (h : eps ≤ Complex.abs z) :
    clampC eps z = z := by
  unfold clampC
  rw [if_neg (not_lt.mpr h)]

/-- Helper: the S→ABCD→S round trip is exact whenever the forward clamp is
inactive (`|2*s21| ≥ 1e-12`, i.e. `|s21| ≥ 5e-13`) and `|s21| ≤ 1` (which
keeps the reverse clamp inactive too), for any positive reference impedance. -/
theorem roundTrip_exact (s : SQuad) (z0 : ℝ) (hz0 : 0 < z0)
    (h21low : (5e-13 : ℝ) ≤ Complex.abs s.s21)
    (h21high : Complex.abs s.s21 ≤ 1) :
    abcd_to_s_pt (s_to_abcd_pt s z0) z0 = s := by
  obtain ⟨a11, a12, a21, a22⟩ := s
  simp only at h21low h21high
  have hs21 : a21 ≠ 0 := by
    intro h
    rw [h, map_zero] at h21low
    norm_num at h21low
  have hz0c : (z0 : ℂ) ≠ 0 := by
    exact_mod_cast ne_of_gt hz0
  have hclamp1 : clampC 1e-12 (2 * a21) = 2 * a21 := by
    apply clampC_of_ge
    rw [map_mul, Complex.abs_two]
    nlinarith
  have hcan1 : (z0:ℂ)*((1+a11)*(1+a22)-a12*a21)/(2*a21)/(z0:ℂ)
      = ((1+a11)*(1+a22)-a12*a21)/(2*a21) := by
    rw [mul_div_assoc]
    exact mul_div_cancel_left₀ _ hz0c
  have hcan2 : (1/(z0:ℂ))*((1-a11)*(1-a22)-a12*a21)/(2*a21)*(z0:ℂ)
      = ((1-a11)*(1-a22)-a12*a21)/(2*a21) := by
    rw [one_div, mul_comm _ ((z0:ℂ)), ← mul_div_assoc, ← mul_assoc,
      mul_inv_cancel₀ hz0c, one_mul]
  have hden : ((1 + a11) * (1 - a22) + a12 * a21) / (2 * a21) +
      (z0 : ℂ) * ((1 + a11) * (1 + a22) - a12 * a21) / (2 * a21) / (z0 : ℂ) +
      (1 / (z0 : ℂ)) * ((1 - a11) * (1 - a22) - a12 * a21) / (2 * a21) * (z0 : ℂ) +
      ((1 - a11) * (1 + a22) + a12 * a21) / (2 * a21) = 2 / a21 := by
    rw [hcan1, hcan2, div_add_div_same, div_add_div_same, div_add_div_same]
    rw [div_eq_div_iff (by simpa using hs21) hs21]
    ring
  have hpos : 0 < Complex.abs a21 := by positivity
  have hclamp2 : clampC 1e-12 (2 / a21) = 2 / a21 := by
    apply clampC_of_ge
    rw [map_div₀, Complex.abs_two]
    have h2 : (2:ℝ) ≤ 2 / Complex.abs a21 := by
      rw [le_div_iff₀ hpos]
      nlinarith
    linarith
  unfold s_to_abcd_pt abcd_to_s_pt
  simp only [hclamp1, hden, hclamp2, SQuad.mk.injEq]
  refine ⟨?_, ?_, ?_, ?_⟩
  · rw [hcan1, hcan2, div_add_div_same, div_sub_div_same, div_sub_div_same]
    field_simp
    ring
  · have hp : ((z0:ℂ)*((1+a11)*(1+a22)-a12*a21)/(2*a21)) *
        ((1/(z0:ℂ))*((1-a11)*(1-a22)-a12*a21)/(2*a21))
        = (((1+a11)*(1+a22)-a12*a21)/(2*a21)) * ((((1-a11)*(1-a22)-a12*a21))/(2*a21)) := by
      rw [div_mul_div_comm, div_mul_div_comm]
      congr 1
      field_simp
      ring
    rw [hp, div_mul_div_comm, div_mul_div_comm, div_sub_div_same]
    field_simp
    ring
  · field_simp
  · rw [hcan1, hcan2, ← neg_div, div_add_div_same, div_sub_div_same, div_add_div_same]
    field_simp
    ring

/-! ## S-parameter dictionaries and list-level (per-frequency) operations

numpy arrays are modelled as `List`; the element-wise numpy formulas become
point-wise maps/zips of the per-point functions above.  A Python S-parameter
dict may lack `s12`/`s21`/`s22` (one-port component data), hence `Option`
fields with the source's `get(key, s11)` fallback. -/

/-- The S-parameter dict `{"s11": ..., "s12": ..., ...}`; missing keys are
`none` (the source falls back to `s11` for them in `s_to_abcd`). -/
structure SPDict where
  s11 : List ℂ
  s12? : Option (List ℂ) := none
  s21? : Option (List ℂ) := none
  s22? : Option (List ℂ) := none

/-- `s_params.get("s12", s_params.get("s11"))` — the 1-port fallback. -/
def SPDict.s12v (d : SPDict) : List ℂ := d.s12?.getD d.s11

/-- `s_params.get("s21", s_params.get("s11"))` — the 1-port fallback. -/
def SPDict.s21v (d : SPDict) : List ℂ := d.s21?.getD d.s11

/-- `s_params.get("s22", s_params.get("s11"))` — the 1-port fallback. -/
def SPDict.s22v (d : SPDict) : List ℂ := d.s22?.getD d.s11

/-- Point-wise zip of four equal-length arrays (numpy element-wise ops). -/
def zipWith4 (f : α → β → γ → δ → ε) : List α → List β → List γ → List δ → List ε
  | a :: as, b :: bs, c :: cs, d :: ds => f a b c d :: zipWith4 f as bs cs ds
  | _, _, _, _ => []

/-- `cascader.s_to_abcd` over a whole array. -/
noncomputable def s_to_abcd (d : SPDict) (z0 : ℝ) : List ABCDMat :=
  zipWith4 (fun a b c e => s_to_abcd_pt ⟨a, b, c, e⟩ z0) d.s11 d.s12v d.s21v d.s22v

/-- `cascader.abcd_to_s` over a whole array (returns all four keys). -/
noncomputable def abcd_to_s (ms : List ABCDMat) (z0 : ℝ) : SPDict :=
  { s11 := ms.map fun m => (abcd_to_s_pt m z0).s11
    s12? := some (ms.map fun m => (abcd_to_s_pt m z0).s12)
    s21? := some (ms.map fun m => (abcd_to_s_pt m z0).s21)
    s22? := some (ms.map fun m => (abcd_to_s_pt m z0).s22) }

/-- One 2×2 complex matrix product (row-by-column, as `np.einsum` does). -/
def abcdMul (m n : ABCDMat) : ABCDMat :=
  { A := m.A * n.A + m.B * n.C
    B := m.A * n.B + m.B * n.D
    C := m.C * n.A + m.D * n.C
    D := m.C * n.B + m.D * n.D }

/-- `cascader._matrix_multiply`: batched per-frequency 2×2 products. -/
def matrix_multiply (a b : List ABCDMat) : List ABCDMat := List.zipWith abcdMul a b

/-- `np.interp` over a list of `(xp, fp)` pairs (xp assumed increasing):
below `xp[0]` it returns `fp[0]`, above `xp[-1]` it returns `fp[-1]`
(numpy's default clamping), otherwise piecewise-linear interpolation. -/
noncomputable def interp1 : List (ℝ × ℝ) → ℝ → ℝ
  | [], _ => 0
  | [(_, y0)], _ => y0
  | (x0, y0) :: (x1, y1) :: rest, x =>
    if x < x0 then y0
    else if x ≤ x1 then y0 + (y1 - y0) * (x - x0) / (x1 - x0)
    else interp1 ((x1, y1) :: rest) x

/-- `cascader.interpolate_s_params` body for one array: real and imaginary
parts are interpolated independently, then recombined as `real + 1j*imag`. -/
noncomputable def interp_complex (source target : List ℝ) (vals : List ℂ) : List ℂ :=
  let rei := target.map (interp1 (source.zip (vals.map Complex.re)))
  let imi := target.map (interp1 (source.zip (vals.map Complex.im)))
  List.zipWith (fun (a b : ℝ) => (a : ℂ) + Complex.I * (b : ℂ)) rei imi

/-- `cascader.interpolate_s_params`: applied to every key present in the dict. -/
noncomputable def interpolate_s_params (d : SPDict) (source target : List ℝ) : SPDict :=
  { s11 := interp_complex source target d.s11
    s12? := d.s12?.map (interp_complex source target)
    s21? := d.s21?.map (interp_complex source target)
    s22? := d.s22?.map (interp_complex source target) }

/-- `np.linspace(a, b, n)` (endpoint included; `n = 1` gives `[a]`). -/
noncomputable def linspace (a b : ℝ) (n : ℕ) : List ℝ :=
  (List.range n).map fun i => a + (b - a) * i / ((n : ℝ) - 1)

/-- `cascader._component_to_shunt_abcd` at one point: the shunt-equivalent
`[[1,0],[Y,1]]` with `Y = 1/Z`, `Z = z0*(1+s11)/(1-s11)`, both clamped. -/
noncomputable def shunt_pt (s11 : ℂ) (z0 : ℝ) : ABCDMat :=
  let denom := clampC 1e-12 (1 - s11)
  let z := (z0 : ℂ) * (1 + s11) / denom
  let y := 1 / clampC 1e-12 z
  { A := 1, B := 0, C := y, D := 1 }

/-- `cascader._component_to_shunt_abcd` over the array (the `frequency`
argument only sizes the numpy allocation; lengths must agree). -/
noncomputable def component_to_shunt_abcd (d : SPDict) (z0 : ℝ) : List ABCDMat :=
  d.s11.map fun s => shunt_pt s z0

/-- The per-component body of the loop in `cascader.cascade_with_topology`:
resample onto the device grid when lengths differ (using the supplied
component grid when available, else a uniform `linspace` assumption), then
convert to ABCD by connection role (`"series"` → direct, otherwise shunt). -/
noncomputable def cascadeComp (frequency : List ℝ) (z0 : ℝ)
    (compFreqs : List (List ℝ)) (i : ℕ) (s : SPDict) (order : String) : List ABCDMat :=
  let numFreqs := frequency.length
  let compS :=
    if s.s11.length ≠ numFreqs then
      let compFreq :=
        if compFreqs ≠ [] ∧ i < compFreqs.length then compFreqs.getD i []
        else linspace (frequency.headD 0) (frequency.getLastD 0) s.s11.length
      interpolate_s_params s compFreq frequency
    else s
  if order = "series" then s_to_abcd compS z0 else component_to_shunt_abcd compS z0

/-- `cascader.cascade_with_topology`: start from the device's ABCD array and
right-multiply each component's ABCD (per role), then convert back.
`componentFrequencies = []` plays the role of Python's `None` (both falsy). -/
noncomputable def cascade_with_topology (deviceS : SPDict) (compList : List SPDict)
    (componentOrder : List String) (frequency : List ℝ) (z0 : ℝ)
    (componentFrequencies : List (List ℝ)) : SPDict :=
  abcd_to_s
    ((compList.zip componentOrder).enum.foldl
      (fun acc p => matrix_multiply acc
        (cascadeComp frequency z0 componentFrequencies p.1 p.2.1 p.2.2))
      (s_to_abcd deviceS z0)) z0

/-- The identity ABCD matrix `[[1,0],[0,1]]`. -/
def identityABCD : ABCDMat := { A := 1, B := 0, C := 0, D := 1 }

/-- `cascader.cascade_networks`: raise on empty input, copy a singleton,
otherwise fold ABCD products starting from the identity. -/
noncomputable def cascade_networks (sParamList : List SPDict) (frequency : List ℝ)
    (z0 : ℝ) : Except String SPDict :=
  match sParamList with
  | [] => .error "No networks to cascade"
  | [s] => .ok s
  | _ =>
    .ok (abcd_to_s
      (sParamList.foldl (fun acc s => matrix_multiply acc (s_to_abcd s z0))
        (List.replicate frequency.length identityABCD)) z0)

/-! ## Metric engine (`optimizer/metrics.py`)

Python's scalar paths return `float("inf")` for degenerate inputs and are
modelled as `Option ℝ`/`Option ℂ` with `none` = infinity; the numpy array
paths floor their denominators instead and always return finite reals. -/

/-- `metrics.reflection_coefficient`: `|Γ| = |(Z - Z0)/(Z + Z0)|`. -/
noncomputable def reflection_coefficient (impedance : ℂ) (z0 : ℝ) : ℝ :=
  Complex.abs ((impedance - (z0 : ℂ)) / (impedance + (z0 : ℂ)))

/-- `metrics.vswr`, scalar path: returns `float("inf")` (here `none`) when
`|1 - |Γ|| < 1e-10`, else `(1+|Γ|)/(1-|Γ|)`. -/
noncomputable def vswr_scalar (impedance : ℂ) (z0 : ℝ) : Option ℝ :=
  let g := reflection_coefficient impedance z0
  if |1 - g| < 1e-10 then none else some ((1 + g) / (1 - g))

/-- `metrics.vswr`, array path, one element: the denominator is floored at
`1e-10` (via `np.where`) before dividing. -/
noncomputable def vswr_arr_elem (impedance : ℂ) (z0 : ℝ) : ℝ :=
  let g := reflection_coefficient impedance z0
  let d := if |1 - g| < 1e-10 then 1e-10 else 1 - g
  (1 + g) / d

/-- `metrics.vswr` applied to an impedance array. -/
noncomputable def vswr_arr (l : List ℂ) (z0 : ℝ) : List ℝ :=
  l.map fun z => vswr_arr_elem z z0

/-- `metrics.return_loss_db`, array path, one element: `|Γ|` floored at
`1e-10`, then `-20*log10`. -/
noncomputable def return_loss_db_elem (impedance : ℂ) (z0 : ℝ) : ℝ :=
  let g := reflection_coefficient impedance z0
  let g2 : ℝ := if g < 1e-10 then 1e-10 else g
  (-20 : ℝ) * Real.logb 10 g2

/-- `metrics.vswr_from_s11`, scalar path: `none` = `float("inf")`. -/
noncomputable def vswr_from_s11_scalar (s11 : ℂ) : Option ℝ :=
  let g := Complex.abs s11
  if |1 - g| < 1e-10 then none else some ((1 + g) / (1 - g))

/-- `metrics.vswr_from_s11`, array path, one element (denominator floored). -/
noncomputable def vswr_from_s11_elem (s11 : ℂ) : ℝ :=
  let g := Complex.abs s11
  let d := if |1 - g| < 1e-10 then 1e-10 else 1 - g
  (1 + g) / d

/-- `metrics.vswr_from_s11` applied to an S11 array. -/
noncomputable def vswr_from_s11_arr (l : List ℂ) : List ℝ :=
  l.map vswr_from_s11_elem

/-- `metrics.impedance_from_s11`, scalar path: `complex(inf, 0)` (= `none`)
when `|1 - s11| < 1e-10`, else `Z0*(1+s11)/(1-s11)`. -/
noncomputable def impedance_from_s11_scalar (s11 : ℂ) (z0 : ℝ) : Option ℂ :=
  if Complex.abs (1 - s11) < 1e-10 then none
  else some ((z0 : ℂ) * (1 + s11) / (1 - s11))

/-- Comparison of a possibly-infinite Python float with a finite bound:
`inf ≤ b` and `inf < b` are both false. -/
def optLE (v : Option ℝ) (b : ℝ) : Prop :=
  match v with
  | some x => x ≤ b
  | none => False

/-- Strict variant of `optLE`. -/
def optLT (v : Option ℝ) (b : ℝ) : Prop :=
  match v with
  | some x => x < b
  | none => False

/-- `metrics.is_matched`: `|Z - target| ≤ tolerance` OR `vswr(Z) ≤ threshold`
(scalar `vswr`, so an infinite VSWR fails the second disjunct). -/
noncomputable def is_matched (impedance : ℂ) (target tolerance vswrThreshold : ℝ) : Prop :=
  Complex.abs (impedance - (target : ℂ)) ≤ tolerance ∨
    optLE (vswr_scalar impedance target) vswrThreshold

/-! ## Weighted objective (`optimizer/objectives.py`) -/

/-- `np.mean` of a list (numpy errors on empty; junk value 0/0 = 0 here). -/
noncomputable def mean (l : List ℝ) : ℝ := l.sum / l.length

/-- Stable insertion of a `(frequency, meets)` pair (argsort model). -/
noncomputable def insertPair (p : ℝ × Prop) : List (ℝ × Prop) → List (ℝ × Prop)
  | [] => [p]
  | q :: l => if q.1 ≤ p.1 then q :: insertPair p l else p :: q :: l

/-- Joint sort of `(frequency, meets)` pairs by frequency
(`np.argsort` applied to both arrays). -/
noncomputable def sortPairs : List (ℝ × Prop) → List (ℝ × Prop)
  | [] => []
  | p :: l => insertPair p (sortPairs l)

/-- The band-accumulation loop of `objectives.calculate_bandwidth`: walks the
sorted `(frequency, meets)` list tracking the open band, adding
`previous_frequency - band_start` when a band closes (and the final band at
the end of the list). -/
noncomputable def bwLoop (prevF : ℝ) (inBand : Prop) (bandStart acc : ℝ) :
    List (ℝ × Prop) → ℝ
  | [] => if inBand then acc + (prevF - bandStart) else acc
  | (f, m) :: rest =>
    if m ∧ ¬ inBand then bwLoop f True f acc rest
    else if ¬ m ∧ inBand then bwLoop f False bandStart (acc + (prevF - bandStart)) rest
    else bwLoop f inBand bandStart acc rest

/-- `objectives.calculate_bandwidth`: total width of the frequency bands on
which the (array-path) VSWR is strictly below the threshold. -/
noncomputable def calculate_bandwidth (impedances : List ℂ) (frequencies_hz : List ℝ)
    (target_impedance vswr_threshold : ℝ) : ℝ :=
  let vswrValues := vswr_arr impedances target_impedance
  let meets : List Prop := vswrValues.map fun v => v < vswr_threshold
  if ∃ m ∈ meets, m then bwLoop 0 False 0 0 (sortPairs (frequencies_hz.zip meets))
  else 0

/-- `objectives.normalize_metric`: affine rescale clipped into `[0,1]`;
returns `0` when `max_val ≤ min_val`. -/
noncomputable def normalize_metric (value min_val max_val : ℝ) : ℝ :=
  if max_val ≤ min_val then 0
  else min (max ((value - min_val) / (max_val - min_val)) 0) 1

/-- Caller-supplied weight dict: `none` = key absent. -/
structure Weights where
  return_loss : Option ℝ := none
  vswr : Option ℝ := none
  bandwidth : Option ℝ := none
  component_count : Option ℝ := none

/-- `{**default_weights, **weights}` followed by `.get(key, 0.0)`: since the
defaults supply every key, each merged weight is the caller's value when
present, else the documented default `(0.7, 0.0, 0.2, 0.1)`. -/
noncomputable def Weights.merged (w : Weights) : ℝ × ℝ × ℝ × ℝ :=
  (w.return_loss.getD 0.7, w.vswr.getD 0.0, w.bandwidth.getD 0.2,
    w.component_count.getD 0.1)

/-- The claim's "sum of the supplied weights": keys absent from the
caller's dict contribute 0. -/
noncomputable def Weights.suppliedSum (w : Weights) : ℝ :=
  w.return_loss.getD 0 + w.vswr.getD 0 + w.bandwidth.getD 0 + w.component_count.getD 0

/-- `objectives.weighted_objective`.  The `components` argument enters only
through `len(components)`, modelled by `numComponents`. -/
noncomputable def weighted_objective (impedances : List ℂ) (frequencies_hz : List ℝ)
    (numComponents : ℕ) (weights : Weights) (target_impedance : ℝ) : ℝ :=
  let avg_return_loss := mean (impedances.map fun z => return_loss_db_elem z target_impedance)
  let avg_vswr := mean (vswr_arr impedances target_impedance)
  let bandwidth_hz := calculate_bandwidth impedances frequencies_hz target_impedance 2.0
  let normalized_return_loss := normalize_metric (-avg_return_loss) (-40) 0
  let normalized_vswr := normalize_metric (avg_vswr - 1) 0 9
  let total_span := frequencies_hz.getLastD 0 - frequencies_hz.headD 0
  let normalized_bandwidth := normalize_metric (-bandwidth_hz) (-total_span) 0
  let normalized_component_count := normalize_metric (numComponents : ℝ) 0 5
  let m := weights.merged
  m.1 * normalized_return_loss + m.2.1 * normalized_vswr +
    m.2.2.1 * normalized_bandwidth + m.2.2.2 * normalized_component_count

/-! ## Data model (`models/`) -/

/-- `models.component.ComponentType`. -/
inductive ComponentType where
  | capacitor
  | inductor
  | unknown
  deriving DecidableEq

/-- `models.component.ComponentModel` (the fields the core reads). -/
structure ComponentModel where
  frequency : List ℝ
  s_parameters : SPDict
  component_type : ComponentType

/-- `models.snp_file.SNPFile` (the fields the core reads). -/
structure SNPFile where
  frequency : List ℝ
  s_parameters : SPDict
  reference_impedance : ℝ

/-- `SNPFile.frequency_range`: `(frequency[0], frequency[-1])`. -/
noncomputable def SNPFile.frequency_range (d : SNPFile) : ℝ × ℝ :=
  (d.frequency.headD 0, d.frequency.getLastD 0)

/-- `SNPFile.center_frequency`: `np.mean(frequency)`. -/
noncomputable def SNPFile.center_frequency (d : SNPFile) : ℝ := mean d.frequency

/-- Filter of a list by a (classically decidable) predicate, keeping order. -/
noncomputable def filterP (P : α → Prop) : List α → List α
  | [] => []
  | a :: l => if P a then a :: filterP P l else filterP P l

/-- `ComponentModel.validate_frequency_coverage`, membership form: the
component has a sample within relative `tolerance` of the device frequency. -/
def ComponentModel.coversFreq (c : ComponentModel) (f tol : ℝ) : Prop :=
  ∃ g ∈ c.frequency, |g - f| / f < tol

/-- `ComponentModel.validate_frequency_coverage`: valid iff no device
frequency is missing from the component's grid (within tolerance). -/
def ComponentModel.validCoverage (c : ComponentModel) (deviceFreq : List ℝ)
    (tol : ℝ) : Prop :=
  ∀ f ∈ deviceFreq, c.coversFreq f tol

/-- `models.component_library.ComponentLibrary` (the core only reads the
ordered component list; the auxiliary indexes preserve insertion order). -/
structure ComponentLibrary where
  components : List ComponentModel

/-- `ComponentLibrary.validate_frequency_coverage(device_frequency_grid)`,
valid side, at the library's default relative tolerance `0.01`. -/
noncomputable def ComponentLibrary.validComponents (lib : ComponentLibrary)
    (deviceFreq : List ℝ) : List ComponentModel :=
  filterP (fun c => c.validCoverage deviceFreq 0.01) lib.components

/-- `ComponentLibrary.get_capacitors` (insertion order preserved). -/
noncomputable def ComponentLibrary.get_capacitors (lib : ComponentLibrary) :
    List ComponentModel :=
  filterP (fun c => c.component_type = ComponentType.capacitor) lib.components

/-- `ComponentLibrary.get_inductors` (insertion order preserved). -/
noncomputable def ComponentLibrary.get_inductors (lib : ComponentLibrary) :
    List ComponentModel :=
  filterP (fun c => c.component_type = ComponentType.inductor) lib.components

/-- `models.matching_network.Topology`. -/
inductive Topology where
  | L_SECTION
  | PI_SECTION
  | T_SECTION
  | CUSTOM
  deriving DecidableEq

/-- `np.min` of a list (numpy errors on the empty array). -/
noncomputable def listMin : List ℝ → ℝ
  | [] => 0
  | a :: as => as.foldl min a

/-- `np.max` of a list (numpy errors on the empty array). -/
noncomputable def listMax : List ℝ → ℝ
  | [] => 0
  | a :: as => as.foldl max a

/-- `np.argmin` of a list: index of the first minimum. -/
noncomputable def argminList (l : List ℝ) : ℕ :=
  (l.enum.foldl (fun acc p => if p.2 < acc.2 then p else acc) (0, l.headD 0)).1

/-! ## Grid search optimizer (`optimizer/grid_search.py`) -/

/-- The mutable search counters of a `GridSearchOptimizer` instance
(`self.search_iterations`); threaded explicitly through `optimize`. -/
structure GridState where
  search_iterations : ℕ

/-- `grid_search.OptimizationError` cases raised by `optimize`. -/
inductive OptError where
  | noValidComponents
  | noSolution (topologyName : String)
  | unsupportedTopology

/-- `itertools.product(l1, l2)` in iteration order. -/
def pairProduct (l1 l2 : List α) : List (α × α) :=
  l1.flatMap fun a => l2.map fun b => (a, b)

/-- The four L-section type-pairings of `_search_l_section`, flattened in
their fixed order (`(caps,inds), (inds,caps), (caps,caps), (inds,inds)`);
the source's `continue` on an empty operand list skips an empty product. -/
def lSectionCombos (caps inds : List ComponentModel) :
    List (ComponentModel × ComponentModel) :=
  pairProduct caps inds ++ pairProduct inds caps ++
    pairProduct caps caps ++ pairProduct inds inds

/-- The two Pi-section type-pairings of `_search_pi_section`. -/
def piSectionCombos (caps inds : List ComponentModel) :
    List (ComponentModel × ComponentModel) :=
  pairProduct caps inds ++ pairProduct inds caps

/-- The full triple product of `_search_t_section` over `caps ++ inds`. -/
def tSectionCombos (caps inds : List ComponentModel) :
    List (ComponentModel × ComponentModel × ComponentModel) :=
  let allComponents := caps ++ inds
  allComponents.flatMap fun c1 => allComponents.flatMap fun c2 =>
    allComponents.map fun c3 => (c1, c2, c3)

/-- `GridSearchOptimizer._evaluate_combination`: cascade the device with the
components, then read `|S11|` at the frequency sample nearest the target. -/
noncomputable def evaluate_combination (device : SNPFile)
    (components : List ComponentModel) (order : List String)
    (target_freq : ℝ) : SPDict × ℝ :=
  let cascaded := cascade_with_topology device.s_parameters
    (components.map fun c => c.s_parameters) order device.frequency
    device.reference_impedance (components.map fun c => c.frequency)
  let targetIdx := argminList (device.frequency.map fun f => |f - target_freq|)
  (cascaded, Complex.abs (cascaded.s11.getD targetIdx 0))

/-- The best-so-far fold shared by all the search loops: start from
`best = None, best_score = inf` and replace only on a strict improvement
(so ties keep the first-encountered candidate). -/
noncomputable def runBest (f : α → ℝ) (l : List α) : Option (α × ℝ) :=
  l.foldl (fun acc x =>
    match acc with
    | none => some (x, f x)
    | some (b, s) => if f x < s then some (x, f x) else some (b, s)) none

/-- The result data produced by the single-frequency path
(`_create_result` plus `OptimizationResult._compute_metrics`). -/
structure GridResult where
  components : List ComponentModel
  component_order : List String
  cascaded : SPDict
  topology : Topology
  frequency_range : ℝ × ℝ
  center_frequency : ℝ
  vswr_at_center : Option ℝ
  impedance_at_center : Option ℂ
  success : Prop
  grid_search_iterations : ℕ

/-- `_create_result` + `OptimizationResult._compute_metrics`: metrics at the
sample nearest the centre frequency; `success = z_error <= 10.0 or
vswr < 2.0` (an exception for empty S11 leaves `success = False`).
`MatchingNetwork.vswr_at_frequency` returns `inf` when `|S11| >= 1`, and
`impedance_at_frequency` returns `inf` when `|1 - S11| < 1e-10`. -/
noncomputable def mkGridResult (device : SNPFile) (components : List ComponentModel)
    (order : List String) (cascaded : SPDict) (freqRange : ℝ × ℝ)
    (targetFreq : ℝ) (topology : Topology) (iters : ℕ) : GridResult :=
  let s11l := cascaded.s11
  let idx := argminList (device.frequency.map fun f => |f - targetFreq|)
  let s11c := s11l.getD idx 0
  let γ := Complex.abs s11c
  let v : Option ℝ := if s11l = [] then none
    else if 1 ≤ γ then none else some ((1 + γ) / (1 - γ))
  let imp : Option ℂ := if s11l = [] then none
    else if Complex.abs (1 - s11c) < 1e-10 then none
    else some ((device.reference_impedance : ℂ) * (1 + s11c) / (1 - s11c))
  let zOk : Prop := match imp with
    | some Z => Complex.abs (Z - (device.reference_impedance : ℂ)) ≤ 10
    | none => False
  { components := components
    component_order := order
    cascaded := cascaded
    topology := topology
    frequency_range := freqRange
    center_frequency := targetFreq
    vswr_at_center := v
    impedance_at_center := imp
    success := if s11l = [] then False else (zOk ∨ optLT v 2)
    grid_search_iterations := iters }

/-- `GridSearchOptimizer._search_l_section` (plus the iteration bookkeeping
and metric injection done by `optimize`): every pairing×candidate pair is
counted, the minimum-reflection pair (first on ties) wins, and the final
cumulative `search_iterations` is reported in the result. -/
noncomputable def searchLSection (device : SNPFile)
    (caps inds : List ComponentModel) (freqRange : ℝ × ℝ) (targetFreq : ℝ)
    (st : GridState) : Except OptError GridResult × GridState :=
  let combos := lSectionCombos caps inds
  let st' : GridState := ⟨st.search_iterations + combos.length⟩
  match runBest
      (fun p => (evaluate_combination device [p.1, p.2] ["series", "shunt"] targetFreq).2)
      combos with
  | none => (.error (.noSolution "L-section"), st')
  | some (best, _) =>
    (.ok (mkGridResult device [best.1, best.2] ["series", "shunt"]
      (evaluate_combination device [best.1, best.2] ["series", "shunt"] targetFreq).1
      freqRange targetFreq Topology.L_SECTION st'.search_iterations), st')

/-- `GridSearchOptimizer._search_pi_section` with the same bookkeeping. -/
noncomputable def searchPiSection (device : SNPFile)
    (caps inds : List ComponentModel) (freqRange : ℝ × ℝ) (targetFreq : ℝ)
    (st : GridState) : Except OptError GridResult × GridState :=
  let combos := piSectionCombos caps inds
  let st' : GridState := ⟨st.search_iterations + combos.length⟩
  match runBest
      (fun p => (evaluate_combination device [p.1, p.2] ["shunt", "series"] targetFreq).2)
      combos with
  | none => (.error (.noSolution "Pi-section"), st')
  | some (best, _) =>
    (.ok (mkGridResult device [best.1, best.2] ["shunt", "series"]
      (evaluate_combination device [best.1, best.2] ["shunt", "series"] targetFreq).1
      freqRange targetFreq Topology.PI_SECTION st'.search_iterations), st')

/-- `GridSearchOptimizer._search_t_section` with the same bookkeeping. -/
noncomputable def searchTSection (device : SNPFile)
    (caps inds : List ComponentModel) (freqRange : ℝ × ℝ) (targetFreq : ℝ)
    (st : GridState) : Except OptError GridResult × GridState :=
  let combos := tSectionCombos caps inds
  let st' : GridState := ⟨st.search_iterations + combos.length⟩
  match runBest
      (fun p => (evaluate_combination device [p.1, p.2.1, p.2.2]
        ["series", "shunt", "series"] targetFreq).2) combos with
  | none => (.error (.noSolution "T-section"), st')
  | some (best, _) =>
    (.ok (mkGridResult device [best.1, best.2.1, best.2.2] ["series", "shunt", "series"]
      (evaluate_combination device [best.1, best.2.1, best.2.2]
        ["series", "shunt", "series"] targetFreq).1
      freqRange targetFreq Topology.T_SECTION st'.search_iterations), st')

/-- `GridSearchOptimizer.optimize`: default the range/target, filter the
library through `validate_frequency_coverage` (raising when nothing
passes), split by component type, and dispatch on topology.  The returned
`GridState` is the instance's `search_iterations` after the call. -/
noncomputable def gridOptimize (device : SNPFile) (lib : ComponentLibrary)
    (topology : Topology) (frequencyRange : Option (ℝ × ℝ))
    (targetFrequency : Option ℝ) (st : GridState) :
    Except OptError GridResult × GridState :=
  let freqRange := frequencyRange.getD device.frequency_range
  let targetFreq := targetFrequency.getD ((freqRange.1 + freqRange.2) / 2)
  let valid := lib.validComponents device.frequency
  if valid = [] then (.error .noValidComponents, st)
  else
    let caps := filterP (fun c => c.component_type = ComponentType.capacitor) valid
    let inds := filterP (fun c => c.component_type = ComponentType.inductor) valid
    match topology with
    | .L_SECTION => searchLSection device caps inds freqRange targetFreq st
    | .PI_SECTION => searchPiSection device caps inds freqRange targetFreq st
    | .T_SECTION => searchTSection device caps inds freqRange targetFreq st
    | .CUSTOM => (.error .unsupportedTopology, st)

/-! ## Bandwidth optimizer (`optimizer/bandwidth_optimizer.py`) -/

/-- `BandwidthOptimizer._interpolate_s_params`, one array: magnitude and
phase are interpolated separately with `np.interp`, then recombined as
`interp_mag * np.exp(1j * interp_phase)`. -/
noncomputable def interp_mag_phase (sourceFreq target : List ℝ) (vals : List ℂ) : List ℂ :=
  let mag := vals.map fun v => Complex.abs v
  let ph := vals.map Complex.arg
  List.zipWith (fun (m p : ℝ) => (m : ℂ) * Complex.exp (Complex.I * (p : ℂ)))
    (target.map (interp1 (sourceFreq.zip mag))) (target.map (interp1 (sourceFreq.zip ph)))

/-- `BandwidthOptimizer._interpolate_s_params`: every key of the dict. -/
noncomputable def bwInterpolateSParams (comp : ComponentModel) (target : List ℝ) : SPDict :=
  { s11 := interp_mag_phase comp.frequency target comp.s_parameters.s11
    s12? := comp.s_parameters.s12?.map (interp_mag_phase comp.frequency target)
    s21? := comp.s_parameters.s21?.map (interp_mag_phase comp.frequency target)
    s22? := comp.s_parameters.s22?.map (interp_mag_phase comp.frequency target) }

/-- Adapter for `cascade_networks`' raise-on-empty: `_build_network` always
passes `device :: components`, which is nonempty, so the error arm is dead. -/
noncomputable def exceptD (e : Except String SPDict) : SPDict :=
  match e with
  | .ok s => s
  | .error _ => { s11 := [] }

/-- `BandwidthOptimizer._build_network`'s cascaded S-parameters: device plus
interpolated components through `cascade_networks` (note: called without
`reference_impedance`, so the numpy default `z0 = 50.0` is used). -/
noncomputable def bwBuildCascaded (device : SNPFile) (components : List ComponentModel) :
    SPDict :=
  exceptD (cascade_networks
    (device.s_parameters :: components.map fun c => bwInterpolateSParams c device.frequency)
    device.frequency 50)

/-- `BandwidthOptimizer._get_l_section_combinations`: `[cap, ind]` and
`[ind, cap]` for every capacitor×inductor pair, in loop order. -/
def bwLSectionCombos (caps inds : List ComponentModel) : List (List ComponentModel) :=
  caps.flatMap fun cap => inds.flatMap fun ind => [[cap, ind], [ind, cap]]

/-- `BandwidthOptimizer._get_pi_section_combinations` (capped at 1000). -/
def bwPiSectionCombos (caps inds : List ComponentModel) : List (List ComponentModel) :=
  (caps.flatMap fun cap1 => inds.flatMap fun ind =>
    caps.map fun cap2 => [cap1, ind, cap2]).take 1000

/-- `BandwidthOptimizer._get_t_section_combinations` (capped at 1000). -/
def bwTSectionCombos (caps inds : List ComponentModel) : List (List ComponentModel) :=
  (inds.flatMap fun ind1 => caps.flatMap fun cap =>
    inds.map fun ind2 => [ind1, cap, ind2]).take 1000

/-- The per-combination score of `BandwidthOptimizer.optimize`:
`np.max(vswr_from_s11(s11[freq_indices]))` of the cascaded network. -/
noncomputable def bwScore (device : SNPFile) (freqIndices : List ℕ)
    (components : List ComponentModel) : ℝ :=
  let s11 := (bwBuildCascaded device components).s11
  listMax (vswr_from_s11_arr (freqIndices.map fun i => s11.getD i 0))

/-- The result data produced by `BandwidthOptimizer._create_result`. -/
structure BWResult where
  components : List ComponentModel
  topology : String
  cascaded : SPDict
  vswr_at_center : Option ℝ
  max_vswr_in_band : ℝ
  success : Prop
  grid_search_iterations : ℕ

/-- `BandwidthOptimizer._create_result`: `vswr_at_center` is read at index
`len(frequency)//2` (`inf` when out of range) and
`success = vswr_at_center <= 2.0` — no impedance criterion. -/
noncomputable def mkBWResult (device : SNPFile) (components : List ComponentModel)
    (topology : String) (freqIndices : List ℕ) (iterations : ℕ) : BWResult :=
  let cascaded := bwBuildCascaded device components
  let s11l := cascaded.s11
  let vswrArray := vswr_from_s11_arr s11l
  let centerIdx := device.frequency.length / 2
  let vAtCenter : Option ℝ :=
    if centerIdx < vswrArray.length then some (vswrArray.getD centerIdx 0) else none
  { components := components
    topology := topology
    cascaded := cascaded
    vswr_at_center := vAtCenter
    max_vswr_in_band := listMax (freqIndices.map fun i => vswrArray.getD i 0)
    success := optLE vAtCenter 2
    grid_search_iterations := iterations }

/-- Failure outcomes of `BandwidthOptimizer.optimize`: the explicit
`ValueError` for an empty in-band index set, and the fallback delegations to
`self._base_optimizer.optimize(topology=<str>)`, which pass a `str` where
the grid optimizer compares against `Topology` enum members and therefore
raise (`topology.value` on a `str`); both fallbacks end in an exception. -/
inductive BWError where
  | noFreqInRange
  | baseOptimizerFallback

/-- `BandwidthOptimizer.optimize`: select in-band frequency indices, filter
each component-type list by min/max frequency coverage, enumerate
combinations per topology (optionally truncated — Python's
`if max_iterations:` is falsy for both `None` and `0`), score each by
worst in-band VSWR, and keep the strict-improvement winner; the result is
created at the winning iteration with that iteration count. -/
noncomputable def bwOptimize (device : SNPFile) (lib : ComponentLibrary)
    (topology : String) (frequencyRange : Option (ℝ × ℝ))
    (maxIterations : Option ℕ) : Except BWError BWResult :=
  let n := device.frequency.length
  let freqIndices : List ℕ :=
    match frequencyRange with
    | some (mn, mx) =>
      filterP (fun i => mn ≤ device.frequency.getD i 0 ∧ device.frequency.getD i 0 ≤ mx)
        (List.range n)
    | none => List.range n
  if frequencyRange.isSome ∧ freqIndices = [] then .error .noFreqInRange
  else
    let dmin := listMin device.frequency
    let dmax := listMax device.frequency
    let caps := filterP
      (fun c => listMin c.frequency ≤ dmin ∧ dmax ≤ listMax c.frequency)
      lib.get_capacitors
    let inds := filterP
      (fun c => listMin c.frequency ≤ dmin ∧ dmax ≤ listMax c.frequency)
      lib.get_inductors
    if caps = [] ∨ inds = [] then .error .baseOptimizerFallback
    else
      let combos₀ :=
        if topology = "L-section" then bwLSectionCombos caps inds
        else if topology = "Pi-section" then bwPiSectionCombos caps inds
        else if topology = "T-section" then bwTSectionCombos caps inds
        else bwLSectionCombos caps inds
      let combos := match maxIterations with
        | some m => if m = 0 then combos₀ else combos₀.take m
        | none => combos₀
      match runBest (fun p => bwScore device freqIndices p.2) combos.enum with
      | none => .error .baseOptimizerFallback
      | some (best, _) => .ok (mkBWResult device best.2 topology freqIndices (best.1 + 1))

/-! ## Helper lemmas about the search fold and filters -/

theorem mem_filterP {P : α → Prop} {l : List α} {a : α} :
    a ∈ filterP P l ↔ a ∈ l ∧ P a := by
  induction l with
  | nil => simp [filterP]
  | cons x xs ih =>
    unfold filterP
    by_cases hx : P x
    · rw [if_pos hx]
      constructor
      · intro h
        rcases List.mem_cons.mp h with rfl | h'
        · exact ⟨List.mem_cons_self _ _, hx⟩
        · exact ⟨List.mem_cons_of_mem _ (ih.mp h').1, (ih.mp h').2⟩
      · rintro ⟨hmem, hP⟩
        rcases List.mem_cons.mp hmem with rfl | h'
        · exact List.mem_cons_self _ _
        · exact List.mem_cons_of_mem _ (ih.mpr ⟨h', hP⟩)
    · rw [if_neg hx]
      constructor
      · intro h
        exact ⟨List.mem_cons_of_mem _ (ih.mp h).1, (ih.mp h).2⟩
      · rintro ⟨hmem, hP⟩
        rcases List.mem_cons.mp hmem with rfl | h'
        · exact absurd hP hx
        · exact ih.mpr ⟨h', hP⟩

theorem runBest_go (f : α → ℝ) (l : List α) : ∀ b₀ : α,
    ∃ pre b post,
      List.foldl (fun acc x =>
        match acc with
        | none => some (x, f x)
        | some (b, s) => if f x < s then some (x, f x) else some (b, s))
        (some (b₀, f b₀)) l = some (b, f b) ∧
      b₀ :: l = pre ++ b :: post ∧
      (∀ y ∈ b₀ :: l, f b ≤ f y) ∧
      (∀ y ∈ pre, f b < f y) := by
  induction l with
  | nil =>
    intro b₀
    exact ⟨[], b₀, [], rfl, rfl, by simp, by simp⟩
  | cons x xs ih =>
    intro b₀
    rw [List.foldl_cons]
    by_cases hx : f x < f b₀
    · have hstep : (match some (b₀, f b₀) with
          | none => some (x, f x)
          | some (b, s) => if f x < s then some (x, f x) else some (b, s))
          = some (x, f x) := by
        simp only [if_pos hx]
      rw [hstep]
      obtain ⟨pre, b, post, h1, h2, h3, h4⟩ := ih x
      refine ⟨b₀ :: pre, b, post, h1, by rw [List.cons_append, ← h2], ?_, ?_⟩
      · intro y hy
        rcases List.mem_cons.mp hy with rfl | hy'
        · have hbx : f b ≤ f x := h3 x (List.mem_cons_self _ _)
          linarith
        · exact h3 y hy'
      · intro y hy
        rcases List.mem_cons.mp hy with rfl | hy'
        · have hbx : f b ≤ f x := h3 x (List.mem_cons_self _ _)
          linarith
        · exact h4 y hy'
    · have hstep : (match some (b₀, f b₀) with
          | none => some (x, f x)
          | some (b, s) => if f x < s then some (x, f x) else some (b, s))
          = some (b₀, f b₀) := by
        simp only [if_neg hx]
      rw [hstep]
      obtain ⟨pre, b, post, h1, h2, h3, h4⟩ := ih b₀
      cases pre with
      | nil =>
        rw [List.nil_append] at h2
        obtain ⟨rfl, rfl⟩ : b₀ = b ∧ xs = post := by
          constructor
          · exact (List.cons.injEq _ _ _ _ ▸ h2).1
          · exact (List.cons.injEq _ _ _ _ ▸ h2).2
        refine ⟨[], b₀, x :: xs, h1, by simp, ?_, by simp⟩
        intro y hy
        rcases List.mem_cons.mp hy with rfl | hy'
        · exact le_refl _
        rcases List.mem_cons.mp hy' with rfl | hy''
        · exact not_lt.mp hx
        · exact h3 y (List.mem_cons_of_mem _ hy'')
      | cons p pre' =>
        rw [List.cons_append] at h2
        obtain ⟨rfl, hxs⟩ : b₀ = p ∧ xs = pre' ++ b :: post := by
          constructor
          · exact (List.cons.injEq _ _ _ _ ▸ h2).1
          · exact (List.cons.injEq _ _ _ _ ▸ h2).2
        refine ⟨b₀ :: x :: pre', b, post, h1, by rw [hxs]; simp, ?_, ?_⟩
        · intro y hy
          have hb0 : f b < f b₀ := h4 b₀ (List.mem_cons_self _ _)
          rcases List.mem_cons.mp hy with rfl | hy'
          · exact le_of_lt hb0
          rcases List.mem_cons.mp hy' with rfl | hy''
          · have h5 := not_lt.mp hx
            linarith
          · exact h3 y (List.mem_cons_of_mem _ hy'')
        · intro y hy
          have hb0 : f b < f b₀ := h4 b₀ (List.mem_cons_self _ _)
          rcases List.mem_cons.mp hy with rfl | hy'
          · exact hb0
          rcases List.mem_cons.mp hy' with rfl | hy''
          · have h5 := not_lt.mp hx
            linarith
          · exact h4 y (List.mem_cons_of_mem _ hy'')

/-- Characterisation of the best-so-far fold on a nonempty list: it returns
the first-encountered minimum — every element weakly dominates it, and every
element strictly before it is strictly worse. -/
theorem runBest_spec (f : α → ℝ) (l : List α) (hl : l ≠ []) :
    ∃ pre b post, runBest f l = some (b, f b) ∧ l = pre ++ b :: post ∧
      (∀ y ∈ l, f b ≤ f y) ∧ (∀ y ∈ pre, f b < f y) := by
  cases l with
  | nil => exact absurd rfl hl
  | cons x xs =>
    obtain ⟨pre, b, post, h1, h2, h3, h4⟩ := runBest_go f xs x
    exact ⟨pre, b, post, h1, h2, h3, h4⟩

theorem runBest_nil (f : α → ℝ) : runBest f [] = none := rfl

/-! ## Abbreviations for the values `optimize` binds internally
(each is definitionally the corresponding `let` inside `gridOptimize`). -/

/-- The capacitors among the coverage-valid components. -/
noncomputable def gridCaps (device : SNPFile) (lib : ComponentLibrary) :
    List ComponentModel :=
  filterP (fun c => c.component_type = ComponentType.capacitor)
    (lib.validComponents device.frequency)

/-- The inductors among the coverage-valid components. -/
noncomputable def gridInds (device : SNPFile) (lib : ComponentLibrary) :
    List ComponentModel :=
  filterP (fun c => c.component_type = ComponentType.inductor)
    (lib.validComponents device.frequency)

/-- The target frequency `optimize` resolves (explicit target, else the
midpoint of the resolved frequency range). -/
noncomputable def gridTargetFreq (device : SNPFile) (frequencyRange : Option (ℝ × ℝ))
    (targetFrequency : Option ℝ) : ℝ :=
  targetFrequency.getD (((frequencyRange.getD device.frequency_range).1 +
    (frequencyRange.getD device.frequency_range).2) / 2)

/-- The reflection score `_search_l_section` minimises for one pair. -/
noncomputable def lReflection (device : SNPFile) (targetFreq : ℝ)
    (p : ComponentModel × ComponentModel) : ℝ :=
  (evaluate_combination device [p.1, p.2] ["series", "shunt"] targetFreq).2

theorem pairProduct_length (l1 l2 : List α) :
    (pairProduct l1 l2).length = l1.length * l2.length := by
  induction l1 with
  | nil => simp [pairProduct]
  | cons a l ih =>
    simp only [pairProduct, List.flatMap_cons, List.length_append, List.length_map,
      List.length_cons] at *
    rw [ih]
    ring

theorem lSectionCombos_length (caps inds : List ComponentModel) :
    (lSectionCombos caps inds).length =
      caps.length * inds.length + inds.length * caps.length +
        caps.length * caps.length + inds.length * inds.length := by
  simp [lSectionCombos, pairProduct_length]
  ring

/-- **C1.** For every device, catalog and target frequency (with a nonempty
coverage-valid catalog and a nonempty enumeration), the L-section search
enumerates the concatenated Cartesian products of the four type-pairings in
their fixed order, evaluates each pair's cascaded `|S11|` at the sample
nearest the target (`evaluate_combination`), returns the result built from
the first-encountered minimum-reflection pair (every enumerated pair scores
no better, every earlier pair scores strictly worse), and reports an
iteration count equal to the number of combinations tried — `4` when there
is exactly one capacitor and one inductor. -/
theorem C1_single_frequency_l_search (device : SNPFile) (lib : ComponentLibrary)
    (frequencyRange : Option (ℝ × ℝ)) (targetFrequency : Option ℝ) (st : GridState)
    (hvalid : lib.validComponents device.frequency ≠ [])
    (hcombos : lSectionCombos (gridCaps device lib) (gridInds device lib) ≠ []) :
    ∃ pre best post r,
      lSectionCombos (gridCaps device lib) (gridInds device lib) = pre ++ best :: post ∧
      gridOptimize device lib .L_SECTION frequencyRange targetFrequency st =
        (.ok r, ⟨st.search_iterations +
          (lSectionCombos (gridCaps device lib) (gridInds device lib)).length⟩) ∧
      r.components = [best.1, best.2] ∧
      r.component_order = ["series", "shunt"] ∧
      r.cascaded = (evaluate_combination device [best.1, best.2] ["series", "shunt"]
        (gridTargetFreq device frequencyRange targetFrequency)).1 ∧
      (∀ p ∈ lSectionCombos (gridCaps device lib) (gridInds device lib),
        lReflection device (gridTargetFreq device frequencyRange targetFrequency) best ≤
          lReflection device (gridTargetFreq device frequencyRange targetFrequency) p) ∧
      (∀ p ∈ pre,
        lReflection device (gridTargetFreq device frequencyRange targetFrequency) best <
          lReflection device (gridTargetFreq device frequencyRange targetFrequency) p) ∧
      r.grid_search_iterations = st.search_iterations +
        (lSectionCombos (gridCaps device lib) (gridInds device lib)).length ∧
      ((gridCaps device lib).length = 1 → (gridInds device lib).length = 1 →
        (lSectionCombos (gridCaps device lib) (gridInds device lib)).length = 4) := by
  have hopt : gridOptimize device lib .L_SECTION frequencyRange targetFrequency st =
      if lib.validComponents device.frequency = [] then (.error .noValidComponents, st)
      else searchLSection device (gridCaps device lib) (gridInds device lib)
        (frequencyRange.getD device.frequency_range)
        (gridTargetFreq device frequencyRange targetFrequency) st := rfl
  obtain ⟨pre, b, post, hrb, hsplit, hmin, hpre⟩ := runBest_spec
    (fun p : ComponentModel × ComponentModel =>
      (evaluate_combination device [p.1, p.2] ["series", "shunt"]
        (gridTargetFreq device frequencyRange targetFrequency)).2)
    (lSectionCombos (gridCaps device lib) (gridInds device lib)) hcombos
  have hsearch : searchLSection device (gridCaps device lib) (gridInds device lib)
      (frequencyRange.getD device.frequency_range)
      (gridTargetFreq device frequencyRange targetFrequency) st =
      (match runBest (fun p : ComponentModel × ComponentModel =>
          (evaluate_combination device [p.1, p.2] ["series", "shunt"]
            (gridTargetFreq device frequencyRange targetFrequency)).2)
          (lSectionCombos (gridCaps device lib) (gridInds device lib)) with
      | none => (.error (.noSolution "L-section"),
          ⟨st.search_iterations +
            (lSectionCombos (gridCaps device lib) (gridInds device lib)).length⟩)
      | some (best, _) =>
        (.ok (mkGridResult device [best.1, best.2] ["series", "shunt"]
          (evaluate_combination device [best.1, best.2] ["series", "shunt"]
            (gridTargetFreq device frequencyRange targetFrequency)).1
          (frequencyRange.getD device.frequency_range)
          (gridTargetFreq device frequencyRange targetFrequency) Topology.L_SECTION
          (st.search_iterations +
            (lSectionCombos (gridCaps device lib) (gridInds device lib)).length)),
          ⟨st.search_iterations +
            (lSectionCombos (gridCaps device lib) (gridInds device lib)).length⟩)) := rfl
  refine ⟨pre, b, post,
    mkGridResult device [b.1, b.2] ["series", "shunt"]
      (evaluate_combination device [b.1, b.2] ["series", "shunt"]
        (gridTargetFreq device frequencyRange targetFrequency)).1
      (frequencyRange.getD device.frequency_range)
      (gridTargetFreq device frequencyRange targetFrequency) Topology.L_SECTION
      (st.search_iterations +
        (lSectionCombos (gridCaps device lib) (gridInds device lib)).length),
    hsplit, ?_, rfl, rfl, rfl, hmin, hpre, rfl, ?_⟩
  · rw [hopt, if_neg hvalid, hsearch, hrb]
  · intro h1 h2
    rw [lSectionCombos_length, h1, h2]

/-! ## A concrete single-frequency scenario (device at 2 GHz, one capacitor
and one inductor with identical S-parameters) used to instantiate the
search theorems. -/

/-- Component S-parameters `(5, -4, -4, 5)` at the single sample 2 GHz. -/
noncomputable def spA : SPDict :=
  { s11 := [(5 : ℂ)], s12? := some [(-4 : ℂ)]
    s21? := some [(-4 : ℂ)], s22? := some [(5 : ℂ)] }

/-- A capacitor-tagged catalog entry. -/
noncomputable def capA : ComponentModel :=
  { frequency := [2e9], s_parameters := spA, component_type := .capacitor }

/-- An inductor-tagged catalog entry with the same data. -/
noncomputable def indA : ComponentModel :=
  { frequency := [2e9], s_parameters := spA, component_type := .inductor }

/-- A device with `S = (0, 1, 1, 0)` (identity two-port) at 2 GHz, Z0 = 50. -/
noncomputable def devA : SNPFile :=
  { frequency := [2e9]
    s_parameters := { s11 := [(0 : ℂ)], s12? := some [(1 : ℂ)]
                      s21? := some [(1 : ℂ)], s22? := some [(0 : ℂ)] }
    reference_impedance := 50 }

/-- The two-entry catalog. -/
noncomputable def libA : ComponentLibrary := { components := [capA, indA] }

theorem coverageA (c : ComponentModel) (hc : c.frequency = [(2e9 : ℝ)]) :
    c.validCoverage [(2e9 : ℝ)] 0.01 := by
  intro f hf
  rw [List.mem_singleton] at hf
  subst hf
  refine ⟨2e9, by rw [hc]; exact List.mem_singleton.mpr rfl, ?_⟩
  norm_num

theorem filterP_cons_pos (P : α → Prop) (a : α) (l : List α) (h : P a) :
    filterP P (a :: l) = a :: filterP P l := by
  simp only [filterP]
  rw [if_pos h]

theorem filterP_cons_neg (P : α → Prop) (a : α) (l : List α) (h : ¬ P a) :
    filterP P (a :: l) = filterP P l := by
  simp only [filterP]
  rw [if_neg h]

theorem validA : libA.validComponents devA.frequency = [capA, indA] := by
  have hdf : devA.frequency = [(2e9 : ℝ)] := rfl
  show filterP _ [capA, indA] = _
  rw [hdf, filterP_cons_pos (fun c => c.validCoverage [(2e9 : ℝ)] 0.01) capA [indA]
    (coverageA capA rfl),
    filterP_cons_pos (fun c => c.validCoverage [(2e9 : ℝ)] 0.01) indA []
    (coverageA indA rfl)]
  rfl

theorem capsA : gridCaps devA libA = [capA] := by
  unfold gridCaps
  rw [validA,
    filterP_cons_pos (fun c => c.component_type = ComponentType.capacitor) capA [indA]
      (show capA.component_type = ComponentType.capacitor from rfl),
    filterP_cons_neg (fun c => c.component_type = ComponentType.capacitor) indA []
      (fun h => ComponentType.noConfusion h)]
  rfl

theorem indsA : gridInds devA libA = [indA] := by
  unfold gridInds
  rw [validA,
    filterP_cons_neg (fun c => c.component_type = ComponentType.inductor) capA [indA]
      (fun h => ComponentType.noConfusion h),
    filterP_cons_pos (fun c => c.component_type = ComponentType.inductor) indA []
      (show indA.component_type = ComponentType.inductor from rfl)]
  rfl

theorem combosA : lSectionCombos (gridCaps devA libA) (gridInds devA libA) =
    [(capA, indA), (indA, capA), (capA, capA), (indA, indA)] := by
  rw [capsA, indsA]
  rfl

/-- Witness for C1: on the concrete 1-capacitor/1-inductor catalog the
L-section search succeeds and reports exactly 4 iterations. -/
theorem C1_single_frequency_l_search_witness :
    ∃ r st', gridOptimize devA libA .L_SECTION none (some 2e9) ⟨0⟩ = (.ok r, st') ∧
      r.grid_search_iterations = 4 := by
  have hvalid : libA.validComponents devA.frequency ≠ [] := by
    rw [validA]
    simp
  have hcombos : lSectionCombos (gridCaps devA libA) (gridInds devA libA) ≠ [] := by
    rw [combosA]
    simp
  obtain ⟨pre, b, post, r, h1, h2, h3, h4, h5, h6, h7, h8, h9⟩ :=
    C1_single_frequency_l_search devA libA none (some 2e9) ⟨0⟩ hvalid hcombos
  refine ⟨r, _, h2, ?_⟩
  rw [h8, h9 (by simp [capsA]) (by simp [indsA])]

/-- Helper for the iteration-counter bookkeeping: one successful L-section
`optimize` call from state `st` ends in state
`st + |combos|` and reports that cumulative value. -/
theorem gridOptimize_L_state (device : SNPFile) (lib : ComponentLibrary)
    (frequencyRange : Option (ℝ × ℝ)) (targetFrequency : Option ℝ)
    (hvalid : lib.validComponents device.frequency ≠ [])
    (hcombos : lSectionCombos (gridCaps device lib) (gridInds device lib) ≠ [])
    (st : GridState) :
    ∃ r, gridOptimize device lib .L_SECTION frequencyRange targetFrequency st =
        (.ok r, ⟨st.search_iterations +
          (lSectionCombos (gridCaps device lib) (gridInds device lib)).length⟩) ∧
      r.grid_search_iterations = st.search_iterations +
        (lSectionCombos (gridCaps device lib) (gridInds device lib)).length := by
  have hopt : gridOptimize device lib .L_SECTION frequencyRange targetFrequency st =
      if lib.validComponents device.frequency = [] then (.error .noValidComponents, st)
      else searchLSection device (gridCaps device lib) (gridInds device lib)
        (frequencyRange.getD device.frequency_range)
        (gridTargetFreq device frequencyRange targetFrequency) st := rfl
  obtain ⟨pre, b, post, hrb, hsplit, hmin, hpre⟩ := runBest_spec
    (fun p : ComponentModel × ComponentModel =>
      (evaluate_combination device [p.1, p.2] ["series", "shunt"]
        (gridTargetFreq device frequencyRange targetFrequency)).2)
    (lSectionCombos (gridCaps device lib) (gridInds device lib)) hcombos
  refine ⟨mkGridResult device [b.1, b.2] ["series", "shunt"]
    (evaluate_combination device [b.1, b.2] ["series", "shunt"]
      (gridTargetFreq device frequencyRange targetFrequency)).1
    (frequencyRange.getD device.frequency_range)
    (gridTargetFreq device frequencyRange targetFrequency) Topology.L_SECTION
    (st.search_iterations +
      (lSectionCombos (gridCaps device lib) (gridInds device lib)).length), ?_, rfl⟩
  have hsearch : searchLSection device (gridCaps device lib) (gridInds device lib)
      (frequencyRange.getD device.frequency_range)
      (gridTargetFreq device frequencyRange targetFrequency) st =
      (match runBest (fun p : ComponentModel × ComponentModel =>
          (evaluate_combination device [p.1, p.2] ["series", "shunt"]
            (gridTargetFreq device frequencyRange targetFrequency)).2)
          (lSectionCombos (gridCaps device lib) (gridInds device lib)) with
      | none => (.error (.noSolution "L-section"),
          ⟨st.search_iterations +
            (lSectionCombos (gridCaps device lib) (gridInds device lib)).length⟩)
      | some (best, _) =>
        (.ok (mkGridResult device [best.1, best.2] ["series", "shunt"]
          (evaluate_combination device [best.1, best.2] ["series", "shunt"]
            (gridTargetFreq device frequencyRange targetFrequency)).1
          (frequencyRange.getD device.frequency_range)
          (gridTargetFreq device frequencyRange targetFrequency) Topology.L_SECTION
          (st.search_iterations +
            (lSectionCombos (gridCaps device lib) (gridInds device lib)).length)),
          ⟨st.search_iterations +
            (lSectionCombos (gridCaps device lib) (gridInds device lib)).length⟩)) := rfl
  rw [hopt, if_neg hvalid, hsearch, hrb]

/-- **C10.** The `search_iterations` counter is initialised once and never
reset: a second L-section `optimize` call on the same instance reports the
cumulative count over both calls (twice the per-call combination count),
not the second call's count alone. -/
theorem C10_cumulative_iterations (device : SNPFile) (lib : ComponentLibrary)
    (frequencyRange : Option (ℝ × ℝ)) (targetFrequency : Option ℝ)
    (hvalid : lib.validComponents device.frequency ≠ [])
    (hcombos : lSectionCombos (gridCaps device lib) (gridInds device lib) ≠ []) :
    ∃ r₁ r₂,
      gridOptimize device lib .L_SECTION frequencyRange targetFrequency ⟨0⟩ =
        (.ok r₁, ⟨(lSectionCombos (gridCaps device lib) (gridInds device lib)).length⟩) ∧
      r₁.grid_search_iterations =
        (lSectionCombos (gridCaps device lib) (gridInds device lib)).length ∧
      gridOptimize device lib .L_SECTION frequencyRange targetFrequency
        ⟨(lSectionCombos (gridCaps device lib) (gridInds device lib)).length⟩ =
        (.ok r₂, ⟨(lSectionCombos (gridCaps device lib) (gridInds device lib)).length +
          (lSectionCombos (gridCaps device lib) (gridInds device lib)).length⟩) ∧
      r₂.grid_search_iterations =
        (lSectionCombos (gridCaps device lib) (gridInds device lib)).length +
          (lSectionCombos (gridCaps device lib) (gridInds device lib)).length ∧
      ((lSectionCombos (gridCaps device lib) (gridInds device lib)).length ≠ 0 →
        r₂.grid_search_iterations ≠
          (lSectionCombos (gridCaps device lib) (gridInds device lib)).length) := by
  obtain ⟨r₁, h1, h1i⟩ := gridOptimize_L_state device lib frequencyRange targetFrequency
    hvalid hcombos ⟨0⟩
  obtain ⟨r₂, h2, h2i⟩ := gridOptimize_L_state device lib frequencyRange targetFrequency
    hvalid hcombos
    ⟨(lSectionCombos (gridCaps device lib) (gridInds device lib)).length⟩
  refine ⟨r₁, r₂, ?_, ?_, h2, h2i, ?_⟩
  · simpa using h1
  · simpa using h1i
  · intro hne
    rw [h2i]
    have hproj : (GridState.mk
        (lSectionCombos (gridCaps device lib) (gridInds device lib)).length).search_iterations
        = (lSectionCombos (gridCaps device lib) (gridInds device lib)).length := rfl
    rw [hproj]
    omega

/-- Witness for C10: on the concrete catalog a first call reports 4
iterations and a second call on the same instance reports 8. -/
theorem C10_cumulative_iterations_witness :
    ∃ r₁ r₂,
      gridOptimize devA libA .L_SECTION none (some 2e9) ⟨0⟩ =
        (.ok r₁, ⟨(lSectionCombos (gridCaps devA libA) (gridInds devA libA)).length⟩) ∧
      r₂.grid_search_iterations = 8 ∧
      gridOptimize devA libA .L_SECTION none (some 2e9) ⟨4⟩ =
        (.ok r₂, ⟨8⟩) := by
  obtain ⟨r₁, r₂, h1, h1i, h2, h2i, hne⟩ := C10_cumulative_iterations devA libA none
    (some 2e9)
    (by rw [validA]; simp)
    (by rw [combosA]; simp)
  have hlen : (lSectionCombos (gridCaps devA libA) (gridInds devA libA)).length = 4 := by
    rw [combosA]
    rfl
  refine ⟨r₁, r₂, h1, ?_, ?_⟩
  · rw [h2i, hlen]
  · rw [hlen] at h2
    exact h2

/-- **C2 (amended).** For every passive quadruple whose `s21` keeps the
forward conversion clamp inactive (`|s21| ≥ 5e-13`, i.e. `|2*s21| ≥ 1e-12`),
and every positive Z0, the S→ABCD→S round trip is exact — in particular each
component returns within the claimed `1e-2` absolute tolerance (and the
identity network within `1e-3`). -/
theorem C2_roundtrip (s : SQuad) (z0 : ℝ) (hz0 : 0 < z0)
    (h11 : Complex.abs s.s11 ≤ 1) (h12 : Complex.abs s.s12 ≤ 1)
    (h22 : Complex.abs s.s22 ≤ 1)
    (h21low : (5e-13 : ℝ) ≤ Complex.abs s.s21)
    (h21high : Complex.abs s.s21 ≤ 1) :
    abcd_to_s_pt (s_to_abcd_pt s z0) z0 = s ∧
    Complex.abs ((abcd_to_s_pt (s_to_abcd_pt s z0) z0).s11 - s.s11) ≤ 1e-2 ∧
    Complex.abs ((abcd_to_s_pt (s_to_abcd_pt s z0) z0).s12 - s.s12) ≤ 1e-2 ∧
    Complex.abs ((abcd_to_s_pt (s_to_abcd_pt s z0) z0).s21 - s.s21) ≤ 1e-2 ∧
    Complex.abs ((abcd_to_s_pt (s_to_abcd_pt s z0) z0).s22 - s.s22) ≤ 1e-2 := by
  have h := roundTrip_exact s z0 hz0 h21low h21high
  refine ⟨h, ?_, ?_, ?_, ?_⟩ <;>
    rw [h] <;> rw [sub_self, map_zero] <;> norm_num

/-- Witness for C2 at the identity network `(0, 1, 1, 0)`, `Z0 = 50`: the
round trip is exact, hence within `1e-3`. -/
theorem C2_roundtrip_witness :
    abcd_to_s_pt (s_to_abcd_pt ⟨0, 1, 1, 0⟩ 50) 50 = ⟨0, 1, 1, 0⟩ ∧
    Complex.abs ((abcd_to_s_pt (s_to_abcd_pt ⟨0, 1, 1, 0⟩ 50) 50).s12 - 1) ≤ 1e-3 := by
  have h := C2_roundtrip ⟨0, 1, 1, 0⟩ 50 (by norm_num)
    (by simpa using zero_le_one)
    (by simpa using le_refl (1 : ℝ))
    (by simpa using le_refl (1 : ℝ))
    (by simp
        norm_num)
    (by simpa using le_refl (1 : ℝ))
  refine ⟨h.1, ?_⟩
  rw [h.1]
  rw [show ((⟨0, 1, 1, 0⟩ : SQuad).s12 - 1) = 0 by simp]
  rw [map_zero]
  norm_num

/-- Shared evaluation: at the quadruple `(1, 1, 0, 1)` (`s21 = 0`, so the
`2*s21` clamp fires) the reconstructed `s12` is `0`, not `1`. -/
theorem badPoint_s12 : (abcd_to_s_pt (s_to_abcd_pt ⟨1, 1, 0, 1⟩ 50) 50).s12 = 0 := by
  have hA : (s_to_abcd_pt ⟨1, 1, 0, 1⟩ 50).A = 0 := by
    simp only [s_to_abcd_pt]
    norm_num
  have hC : (s_to_abcd_pt ⟨1, 1, 0, 1⟩ 50).C = 0 := by
    simp only [s_to_abcd_pt]
    norm_num
  have hD : (s_to_abcd_pt ⟨1, 1, 0, 1⟩ 50).D = 0 := by
    simp only [s_to_abcd_pt]
    norm_num
  simp only [abcd_to_s_pt]
  rw [hA, hC, hD]
  norm_num

/-- **C2 (counterexample).** The quadruple `(1, 1, 0, 1)` is passive (every
`|Sij| ≤ 1`), yet at `Z0 = 50` the round trip returns `s12 = 0`, an absolute
error of `1 > 1e-2` — the claim fails when the `s21` clamp fires. -/
theorem C2_roundtrip_counterexample :
    Complex.abs ((⟨1, 1, 0, 1⟩ : SQuad).s11) ≤ 1 ∧
    Complex.abs ((⟨1, 1, 0, 1⟩ : SQuad).s12) ≤ 1 ∧
    Complex.abs ((⟨1, 1, 0, 1⟩ : SQuad).s21) ≤ 1 ∧
    Complex.abs ((⟨1, 1, 0, 1⟩ : SQuad).s22) ≤ 1 ∧
    ¬ (Complex.abs ((abcd_to_s_pt (s_to_abcd_pt ⟨1, 1, 0, 1⟩ 50) 50).s12 -
        (⟨1, 1, 0, 1⟩ : SQuad).s12) ≤ 1e-2) := by
  refine ⟨by simpa using zero_le_one, by simpa using zero_le_one,
    by simpa using zero_le_one, by simpa using zero_le_one, ?_⟩
  rw [badPoint_s12]
  rw [show ((0 : ℂ) - (⟨1, 1, 0, 1⟩ : SQuad).s12) = -1 by simp]
  rw [AbsoluteValue.map_neg, map_one]
  norm_num

theorem s_to_abcd_cons (a b c d : ℂ) (as bs cs ds : List ℂ) (z0 : ℝ) :
    s_to_abcd ⟨a :: as, some (b :: bs), some (c :: cs), some (d :: ds)⟩ z0 =
      s_to_abcd_pt ⟨a, b, c, d⟩ z0 ::
        s_to_abcd ⟨as, some bs, some cs, some ds⟩ z0 := rfl

theorem abcd_to_s_cons (m : ABCDMat) (ms : List ABCDMat) (z0 : ℝ) :
    abcd_to_s (m :: ms) z0 =
      ⟨(abcd_to_s_pt m z0).s11 :: (abcd_to_s ms z0).s11,
        some ((abcd_to_s_pt m z0).s12 :: (abcd_to_s ms z0).s12?.getD []),
        some ((abcd_to_s_pt m z0).s21 :: (abcd_to_s ms z0).s21?.getD []),
        some ((abcd_to_s_pt m z0).s22 :: (abcd_to_s ms z0).s22?.getD [])⟩ := rfl

/-- Helper: the array-level S→ABCD→S round trip is the identity on a
four-key dict when every `s21` sample keeps the clamps inactive. -/
theorem abcd_roundtrip_lists (z0 : ℝ) (hz0 : 0 < z0) :
    ∀ (l11 l12 l21 l22 : List ℂ),
      l12.length = l11.length → l21.length = l11.length → l22.length = l11.length →
      (∀ c ∈ l21, (5e-13 : ℝ) ≤ Complex.abs c ∧ Complex.abs c ≤ 1) →
      abcd_to_s (s_to_abcd ⟨l11, some l12, some l21, some l22⟩ z0) z0 =
        ⟨l11, some l12, some l21, some l22⟩ := by
  intro l11
  induction l11 with
  | nil =>
    intro l12 l21 l22 h12 h21 h22 hpass
    rw [List.length_eq_zero.mp h12, List.length_eq_zero.mp h21,
      List.length_eq_zero.mp h22]
    rfl
  | cons a as ih =>
    intro l12 l21 l22 h12 h21 h22 hpass
    cases l12 with
    | nil => simp at h12
    | cons b bs =>
      cases l21 with
      | nil => simp at h21
      | cons c cs =>
        cases l22 with
        | nil => simp at h22
        | cons d ds =>
          have hpt := roundTrip_exact ⟨a, b, c, d⟩ z0 hz0
            (hpass c (List.mem_cons_self _ _)).1
            (hpass c (List.mem_cons_self _ _)).2
          have htail := ih bs cs ds (by simpa using h12) (by simpa using h21)
            (by simpa using h22)
            (fun x hx => hpass x (List.mem_cons_of_mem _ hx))
          have e1 : (abcd_to_s (s_to_abcd ⟨as, some bs, some cs, some ds⟩ z0) z0).s11
              = as := by rw [htail]
          have e2 : (abcd_to_s (s_to_abcd ⟨as, some bs, some cs, some ds⟩ z0) z0).s12?.getD []
              = bs := by
            rw [htail]
            rfl
          have e3 : (abcd_to_s (s_to_abcd ⟨as, some bs, some cs, some ds⟩ z0) z0).s21?.getD []
              = cs := by
            rw [htail]
            rfl
          have e4 : (abcd_to_s (s_to_abcd ⟨as, some bs, some cs, some ds⟩ z0) z0).s22?.getD []
              = ds := by
            rw [htail]
            rfl
          rw [s_to_abcd_cons, abcd_to_s_cons, e1, e2, e3, e4, hpt]

/-- **C3 (amended).** Cascading a device with an empty candidate list returns
the device's own scattering parameters exactly (hence within `1e-6`),
provided every `s21` sample keeps the conversion clamp inactive
(`5e-13 ≤ |s21| ≤ 1`); with zero candidates `cascade_with_topology` reduces
to the S→ABCD→S round trip of the device. -/
theorem C3_empty_cascade (freq : List ℝ) (z0 : ℝ) (hz0 : 0 < z0)
    (l11 l12 l21 l22 : List ℂ)
    (h12 : l12.length = l11.length) (h21 : l21.length = l11.length)
    (h22 : l22.length = l11.length)
    (hpass : ∀ c ∈ l21, (5e-13 : ℝ) ≤ Complex.abs c ∧ Complex.abs c ≤ 1) :
    cascade_with_topology ⟨l11, some l12, some l21, some l22⟩ [] [] freq z0 [] =
      ⟨l11, some l12, some l21, some l22⟩ := by
  have h0 : cascade_with_topology ⟨l11, some l12, some l21, some l22⟩ [] [] freq z0 [] =
      abcd_to_s (s_to_abcd ⟨l11, some l12, some l21, some l22⟩ z0) z0 := rfl
  rw [h0]
  exact abcd_roundtrip_lists z0 hz0 l11 l12 l21 l22 h12 h21 h22 hpass

/-- Witness for C3: the identity two-port device at one frequency sample is
returned unchanged by the empty cascade. -/
theorem C3_empty_cascade_witness :
    cascade_with_topology ⟨[0], some [1], some [1], some [0]⟩ [] [] [1e9] 50 [] =
      ⟨[0], some [1], some [1], some [0]⟩ := by
  refine C3_empty_cascade [1e9] 50 (by norm_num) [0] [1] [1] [0] rfl rfl rfl ?_
  intro c hc
  rw [List.mem_singleton] at hc
  subst hc
  constructor
  · simp
    norm_num
  · simp

/-- **C3 (counterexample).** A device with `S = (1, 1, 0, 1)` at one sample
(`s21 = 0`) is not returned unchanged by the empty cascade: the output `s12`
is `0`, an error of `1 > 1e-6`. -/
theorem C3_empty_cascade_counterexample :
    ¬ (Complex.abs ((cascade_with_topology ⟨[1], some [1], some [0], some [1]⟩
        [] [] [1e9] 50 []).s12v.getD 0 0 - 1) ≤ 1e-6) := by
  have h0 : (cascade_with_topology ⟨[1], some [1], some [0], some [1]⟩
      [] [] [1e9] 50 []).s12v.getD 0 0 =
      (abcd_to_s_pt (s_to_abcd_pt ⟨1, 1, 0, 1⟩ 50) 50).s12 := rfl
  rw [h0, badPoint_s12]
  rw [show ((0 : ℂ) - 1) = -1 by ring]
  rw [AbsoluteValue.map_neg, map_one]
  norm_num

/-- **C5 (amended).** The array path of `vswr_from_s11` floors its
denominator at `1e-10` before dividing, so any `|Γ| ≤ 1` (including `|Γ|`
at or near 1) yields a positive finite value bounded by `2e10`, with
exactly `2e10` at `|Γ| = 1`; but the scalar path does not floor — it
returns `float("inf")` (modelled `none`) whenever `|1 - |Γ|| < 1e-10`, and
only divides un-floored otherwise. -/
theorem C5_vswr_denominator_floor (γ : ℂ) :
    (|1 - Complex.abs γ| < 1e-10 → vswr_from_s11_scalar γ = none) ∧
    (¬ (|1 - Complex.abs γ| < 1e-10) →
      vswr_from_s11_scalar γ = some ((1 + Complex.abs γ) / (1 - Complex.abs γ))) ∧
    (Complex.abs γ ≤ 1 →
      0 < vswr_from_s11_elem γ ∧ vswr_from_s11_elem γ ≤ 2e10) ∧
    (Complex.abs γ = 1 → vswr_from_s11_elem γ = 2e10) := by
  have hg0 : 0 ≤ Complex.abs γ := AbsoluteValue.nonneg _ _
  refine ⟨?_, ?_, ?_, ?_⟩
  · intro h
    unfold vswr_from_s11_scalar
    rw [if_pos h]
  · intro h
    unfold vswr_from_s11_scalar
    rw [if_neg h]
  · intro hle
    simp only [vswr_from_s11_elem]
    by_cases h : |1 - Complex.abs γ| < 1e-10
    · rw [if_pos h]
      constructor
      · positivity
      · rw [div_le_iff₀ (by norm_num)]
        nlinarith
    · rw [if_neg h]
      have habs : |1 - Complex.abs γ| = 1 - Complex.abs γ := abs_of_nonneg (by linarith)
      rw [habs] at h
      push_neg at h
      constructor
      · positivity
      · calc (1 + Complex.abs γ) / (1 - Complex.abs γ) ≤ 2 / 1e-10 := by
              apply div_le_div (by norm_num) (by linarith) (by norm_num) h
            _ = 2e10 := by norm_num
  · intro h1
    simp only [vswr_from_s11_elem]
    rw [h1]
    rw [if_pos (by norm_num)]
    norm_num

/-- Witness for C5 at concrete inputs: the scalar path divides un-floored at
`Γ = 0` (VSWR 1), and the array path returns the floored `2e10` at `Γ = 1`. -/
theorem C5_vswr_denominator_floor_witness :
    vswr_from_s11_scalar 0 = some 1 ∧ vswr_from_s11_elem 1 = 2e10 := by
  have h0 := (C5_vswr_denominator_floor 0).2.1 (by simp; norm_num)
  have h1 := (C5_vswr_denominator_floor 1).2.2.2 (by simp)
  refine ⟨?_, h1⟩
  rw [h0]
  simp

/-- **C5 (counterexample).** At the scalar input `Γ = 1` the code returns
`float("inf")` (`none`), not the large finite floored value `2e10` the
claim promises for every scalar-or-array input. -/
theorem C5_vswr_denominator_floor_counterexample :
    vswr_from_s11_scalar 1 = none ∧ vswr_from_s11_scalar 1 ≠ some 2e10 := by
  have h : vswr_from_s11_scalar 1 = none := by
    unfold vswr_from_s11_scalar
    rw [if_pos (by simp; norm_num)]
  exact ⟨h, by rw [h]; exact fun hc => Option.noConfusion hc⟩

theorem zipWith_map_same (l : List ℝ) (g h : ℝ → ℝ) (f : ℝ → ℝ → ℂ) :
    List.zipWith f (l.map g) (l.map h) = l.map fun x => f (g x) (h x) := by
  induction l with
  | nil => rfl
  | cons a as ih => simp [ih]

/-- **C8 (amended).** The resampler interpolates the real and imaginary
parts independently by linear interpolation (each output sample combines
`interp1` of the real parts and of the imaginary parts at that target
frequency), linearly between grid nodes; but for target frequencies outside
the source range it clamps to the boundary sample (`fp[0]` below, `fp[-1]`
above — numpy's default), it does not extrapolate linearly. -/
theorem C8_interpolation_clamps :
    (∀ (source target : List ℝ) (vals : List ℂ),
      interp_complex source target vals = target.map fun x =>
        ((interp1 (source.zip (vals.map Complex.re)) x : ℝ) : ℂ) +
          Complex.I * ((interp1 (source.zip (vals.map Complex.im)) x : ℝ) : ℂ)) ∧
    (∀ x0 y0 x1 y1 x : ℝ, x0 ≤ x → x ≤ x1 →
      interp1 [(x0, y0), (x1, y1)] x = y0 + (y1 - y0) * (x - x0) / (x1 - x0)) ∧
    (∀ (p0 : ℝ × ℝ) (rest : List (ℝ × ℝ)) (x : ℝ), x < p0.1 →
      interp1 (p0 :: rest) x = p0.2) ∧
    (∀ (ps : List (ℝ × ℝ)) (x : ℝ) (h : ps ≠ []), (∀ p ∈ ps, p.1 < x) →
      interp1 ps x = (ps.getLast h).2) := by
  refine ⟨?_, ?_, ?_, ?_⟩
  · intro source target vals
    simp only [interp_complex]
    exact zipWith_map_same target _ _ _
  · intro x0 y0 x1 y1 x h0 h1
    simp only [interp1]
    rw [if_neg (not_lt.mpr h0), if_pos h1]
  · intro p0 rest x hx
    obtain ⟨px, py⟩ := p0
    cases rest with
    | nil => rfl
    | cons q qs =>
      obtain ⟨qx, qy⟩ := q
      simp only [interp1]
      rw [if_pos hx]
  · intro ps
    induction ps with
    | nil => intro x h; exact absurd rfl h
    | cons p ps ih =>
      intro x h hall
      obtain ⟨px, py⟩ := p
      cases ps with
      | nil => rfl
      | cons q qs =>
        obtain ⟨qx, qy⟩ := q
        have h1 : ¬ (x < px) := not_lt.mpr (le_of_lt (hall (px, py) (List.mem_cons_self _ _)))
        have h2 : ¬ (x ≤ qx) :=
          not_le.mpr (hall (qx, qy) (List.mem_cons_of_mem _ (List.mem_cons_self _ _)))
        simp only [interp1]
        rw [if_neg h1, if_neg h2]
        rw [List.getLast_cons (List.cons_ne_nil _ _)]
        exact ih x (List.cons_ne_nil _ _)
          (fun pr hpr => hall pr (List.mem_cons_of_mem _ hpr))

/-- Witness for C8: on the grid `[(1,10),(2,20)]` the interpolant is 15 at
1.5 (linear), 10 at 0 (clamped low) and 20 at 3 (clamped high). -/
theorem C8_interpolation_clamps_witness :
    interp1 [((1 : ℝ), (10 : ℝ)), (2, 20)] 1.5 = 15 ∧
    interp1 [((1 : ℝ), (10 : ℝ)), (2, 20)] 0 = 10 ∧
    interp1 [((1 : ℝ), (10 : ℝ)), (2, 20)] 3 = 20 := by
  obtain ⟨ha, hb, hc, hd⟩ := C8_interpolation_clamps
  refine ⟨?_, ?_, ?_⟩
  · rw [hb 1 10 2 20 1.5 (by norm_num) (by norm_num)]
    norm_num
  · exact hc (1, 10) [(2, 20)] 0 (by norm_num)
  · rw [hd [((1 : ℝ), (10 : ℝ)), (2, 20)] 3 (by simp) ?_]
    · rfl
    · intro p hp
      rcases List.mem_cons.mp hp with rfl | hp'
      · norm_num
      rcases List.mem_cons.mp hp' with rfl | hp''
      · norm_num
      · simp at hp''

/-- **C8 (counterexample).** Resampling the array `[10, 20]` from the grid
`[1, 2]` onto the out-of-range target `[3]` yields `20` (the boundary
sample, held constant), not the `30` that linear extrapolation through the
last two points would give. -/
theorem C8_interpolation_clamps_counterexample :
    (interpolate_s_params ⟨[10, 20], none, none, none⟩ [1, 2] [3]).s11 = [(20 : ℂ)] ∧
    (20 : ℂ) ≠ 10 + (20 - 10) * ((3 - 1) / (2 - 1)) := by
  constructor
  · show interp_complex [1, 2] [3] [10, 20] = [(20 : ℂ)]
    have hre : interp1 [((1 : ℝ), (10 : ℝ)), (2, 20)] 3 = 20 := by
      simp only [interp1]
      rw [if_neg (by norm_num), if_neg (by norm_num)]
    have him : interp1 [((1 : ℝ), (0 : ℝ)), (2, 0)] 3 = 0 := by
      simp only [interp1]
      rw [if_neg (by norm_num), if_neg (by norm_num)]
    simp only [interp_complex, List.map_cons, List.map_nil, List.zip_cons_cons,
      List.zip_nil_right, List.zipWith_cons_cons, List.zipWith_nil_right]
    norm_num [hre, him]
  · intro h
    rw [show ((10 : ℂ) + (20 - 10) * ((3 - 1) / (2 - 1))) = 30 by norm_num] at h
    have : (20 : ℝ) = 30 := by exact_mod_cast h
    norm_num at this

/-- The sum of the merged weights: the bound the code actually satisfies. -/
noncomputable def Weights.mergedSum (w : Weights) : ℝ :=
  w.merged.1 + w.merged.2.1 + w.merged.2.2.1 + w.merged.2.2.2

theorem normalize_metric_nonneg (v a b : ℝ) : 0 ≤ normalize_metric v a b := by
  unfold normalize_metric
  by_cases h : b ≤ a
  · rw [if_pos h]
  · rw [if_neg h]
    exact le_min (le_max_right _ _) zero_le_one

theorem normalize_metric_le_one (v a b : ℝ) : normalize_metric v a b ≤ 1 := by
  unfold normalize_metric
  by_cases h : b ≤ a
  · rw [if_pos h]
    norm_num
  · rw [if_neg h]
    exact min_le_right _ _

theorem getD_nonneg (o : Option ℝ) (d : ℝ) (hd : 0 ≤ d)
    (ho : ∀ v, o = some v → 0 ≤ v) : 0 ≤ o.getD d := by
  cases o with
  | none => simpa using hd
  | some v => simpa using ho v rfl

theorem logb_ten_eps : Real.logb 10 (1e-10 : ℝ) = -10 := by
  have h : (1e-10 : ℝ) = (10 : ℝ) ^ (-10 : ℤ) := by norm_num
  have hlog : Real.log 10 ≠ 0 := by
    have := Real.log_pos (by norm_num : (1 : ℝ) < 10)
    linarith
  rw [Real.logb, h, Real.log_zpow]
  field_simp

/-- `return_loss_db` at a perfectly matched impedance: `|Γ| = 0` is floored
to `1e-10`, giving `-20*log10(1e-10) = 200` dB. -/
theorem return_loss_db_elem_at_target (t : ℝ) :
    return_loss_db_elem (t : ℂ) t = 200 := by
  simp only [return_loss_db_elem, reflection_coefficient, sub_self, zero_div, map_zero]
  rw [if_pos (by norm_num), logb_ten_eps]
  norm_num

theorem mean_const (l : List ℝ) (c : ℝ) (hne : l ≠ []) (h : ∀ x ∈ l, x = c) :
    mean l = c := by
  have hsum : l.sum = l.length • c := List.sum_eq_card_nsmul l c h
  have hlen : (0 : ℝ) < l.length := by
    have := List.length_pos.mpr hne
    exact_mod_cast this
  unfold mean
  rw [hsum, nsmul_eq_mul, mul_comm, mul_div_assoc, div_self (ne_of_gt hlen), mul_one]

/-- **C7 (amended).** With nonnegative supplied weights, the weighted
objective lies in `[0, sum of the merged weights]` (supplied weights merged
over the defaults `{return_loss: 0.7, vswr: 0.0, bandwidth: 0.2,
component_count: 0.1}`); and it equals 0 whenever, after merging, the
return-loss weight is the only possibly-nonzero weight and the impedance
equals the target at every frequency (nonempty band). -/
theorem C7_weighted_objective_bounds (impedances : List ℂ) (frequencies_hz : List ℝ)
    (numComponents : ℕ) (w : Weights) (target : ℝ) :
    ((∀ v, w.return_loss = some v → 0 ≤ v) → (∀ v, w.vswr = some v → 0 ≤ v) →
     (∀ v, w.bandwidth = some v → 0 ≤ v) → (∀ v, w.component_count = some v → 0 ≤ v) →
      0 ≤ weighted_objective impedances frequencies_hz numComponents w target ∧
      weighted_objective impedances frequencies_hz numComponents w target ≤
        w.mergedSum) ∧
    (w.vswr = some 0 → w.bandwidth = some 0 → w.component_count = some 0 →
      impedances ≠ [] → (∀ z ∈ impedances, z = (target : ℂ)) →
      weighted_objective impedances frequencies_hz numComponents w target = 0) := by
  constructor
  · intro h1 h2 h3 h4
    have w1 : 0 ≤ w.merged.1 := getD_nonneg _ _ (by norm_num) h1
    have w2 : 0 ≤ w.merged.2.1 := getD_nonneg _ _ (by norm_num) h2
    have w3 : 0 ≤ w.merged.2.2.1 := getD_nonneg _ _ (by norm_num) h3
    have w4 : 0 ≤ w.merged.2.2.2 := getD_nonneg _ _ (by norm_num) h4
    simp only [weighted_objective, Weights.mergedSum]
    have n1 := normalize_metric_le_one
      (-(mean (impedances.map fun z => return_loss_db_elem z target))) (-40) 0
    have n2 := normalize_metric_le_one (mean (vswr_arr impedances target) - 1) 0 9
    have n3 := normalize_metric_le_one
      (-(calculate_bandwidth impedances frequencies_hz target 2.0))
      (-(frequencies_hz.getLastD 0 - frequencies_hz.headD 0)) 0
    have n4 := normalize_metric_le_one (numComponents : ℝ) 0 5
    have m1 := normalize_metric_nonneg
      (-(mean (impedances.map fun z => return_loss_db_elem z target))) (-40) 0
    have m2 := normalize_metric_nonneg (mean (vswr_arr impedances target) - 1) 0 9
    have m3 := normalize_metric_nonneg
      (-(calculate_bandwidth impedances frequencies_hz target 2.0))
      (-(frequencies_hz.getLastD 0 - frequencies_hz.headD 0)) 0
    have m4 := normalize_metric_nonneg (numComponents : ℝ) 0 5
    constructor
    · linarith [mul_nonneg w1 m1, mul_nonneg w2 m2, mul_nonneg w3 m3, mul_nonneg w4 m4]
    · linarith [mul_le_of_le_one_right w1 n1, mul_le_of_le_one_right w2 n2,
        mul_le_of_le_one_right w3 n3, mul_le_of_le_one_right w4 n4]
  · intro hv hbw hcc hne hall
    have hrl : ∀ x ∈ impedances.map fun z => return_loss_db_elem z target, x = 200 := by
      intro x hx
      obtain ⟨z, hz, rfl⟩ := List.mem_map.mp hx
      rw [hall z hz]
      exact return_loss_db_elem_at_target target
    have hmean : mean (impedances.map fun z => return_loss_db_elem z target) = 200 :=
      mean_const _ _ (by simpa using hne) hrl
    simp only [weighted_objective, Weights.merged, hv, hbw, hcc, Option.getD_some, hmean]
    have hn : normalize_metric (-(200 : ℝ)) (-40) 0 = 0 := by
      unfold normalize_metric
      rw [if_neg (by norm_num)]
      norm_num
    rw [hn]
    ring

/-- Witness for C7: with weights `{return_loss: 1, vswr: 0, bandwidth: 0,
component_count: 0}` and a perfectly matched single-point band, the cost is
in `[0, 1]` and equal to 0. -/
theorem C7_weighted_objective_bounds_witness :
    0 ≤ weighted_objective [((50 : ℝ) : ℂ)] [1e9] 0
      ⟨some 1, some 0, some 0, some 0⟩ 50 ∧
    weighted_objective [((50 : ℝ) : ℂ)] [1e9] 0
      ⟨some 1, some 0, some 0, some 0⟩ 50 = 0 := by
  have h := C7_weighted_objective_bounds [((50 : ℝ) : ℂ)] [1e9] 0
    ⟨some 1, some 0, some 0, some 0⟩ 50
  refine ⟨?_, ?_⟩
  · exact (h.1 (fun v hv => by cases hv; norm_num)
      (fun v hv => by cases hv; norm_num)
      (fun v hv => by cases hv; norm_num)
      (fun v hv => by cases hv; norm_num)).1
  · exact h.2 rfl rfl rfl (by simp)
      (fun z hz => by rw [List.mem_singleton] at hz; exact hz)

/-- **C7 (counterexample).** With an empty caller weight dict (sum of
supplied weights = 0), a perfectly matched single-point band and 5
components, the objective evaluates to `0.1` (the default component-count
weight times 1), which exceeds the claimed upper bound of 0. -/
theorem C7_weighted_objective_bounds_counterexample :
    weighted_objective [((50 : ℝ) : ℂ)] [1e9] 5 ⟨none, none, none, none⟩ 50 = 0.1 ∧
    Weights.suppliedSum ⟨none, none, none, none⟩ = 0 ∧
    ¬ (weighted_objective [((50 : ℝ) : ℂ)] [1e9] 5 ⟨none, none, none, none⟩ 50 ≤
        Weights.suppliedSum ⟨none, none, none, none⟩) := by
  have hmean : mean (([((50 : ℝ) : ℂ)]).map fun z => return_loss_db_elem z 50) = 200 := by
    simp only [List.map_cons, List.map_nil, return_loss_db_elem_at_target]
    unfold mean
    norm_num
  have heval : weighted_objective [((50 : ℝ) : ℂ)] [1e9] 5 ⟨none, none, none, none⟩ 50
      = 0.1 := by
    simp only [weighted_objective, hmean, Weights.merged, Option.getD_none]
    have h1 : normalize_metric (-(200 : ℝ)) (-40) 0 = 0 := by
      unfold normalize_metric
      rw [if_neg (by norm_num)]
      norm_num
    have hspan : ([(1e9 : ℝ)]).getLastD 0 - ([(1e9 : ℝ)]).headD 0 = 0 := by
      simp
    have h3 : normalize_metric
        (-(calculate_bandwidth [((50 : ℝ) : ℂ)] [1e9] 50 2.0))
        (-(([(1e9 : ℝ)]).getLastD 0 - ([(1e9 : ℝ)]).headD 0)) 0 = 0 := by
      unfold normalize_metric
      rw [if_pos (by rw [hspan]; norm_num)]
    have h4 : normalize_metric ((5 : ℕ) : ℝ) 0 5 = 1 := by
      unfold normalize_metric
      rw [if_neg (by norm_num)]
      norm_num
    rw [h1, h3, h4]
    ring
  have hsupp : Weights.suppliedSum ⟨none, none, none, none⟩ = 0 := by
    unfold Weights.suppliedSum
    simp
  refine ⟨heval, hsupp, ?_⟩
  rw [heval, hsupp]
  norm_num

theorem mem_pairProduct {l1 l2 : List α} {p : α × α} (h : p ∈ pairProduct l1 l2) :
    p.1 ∈ l1 ∧ p.2 ∈ l2 := by
  rw [pairProduct, List.mem_flatMap] at h
  obtain ⟨a, ha, hmem⟩ := h
  rw [List.mem_map] at hmem
  obtain ⟨b, hb, rfl⟩ := hmem
  exact ⟨ha, hb⟩

theorem mem_lSectionCombos {caps inds : List ComponentModel}
    {p : ComponentModel × ComponentModel} (h : p ∈ lSectionCombos caps inds) :
    (p.1 ∈ caps ∨ p.1 ∈ inds) ∧ (p.2 ∈ caps ∨ p.2 ∈ inds) := by
  unfold lSectionCombos at h
  rcases List.mem_append.mp h with h' | h'
  · rcases List.mem_append.mp h' with h'' | h''
    · rcases List.mem_append.mp h'' with h3 | h3
      · exact ⟨Or.inl (mem_pairProduct h3).1, Or.inr (mem_pairProduct h3).2⟩
      · exact ⟨Or.inr (mem_pairProduct h3).1, Or.inl (mem_pairProduct h3).2⟩
    · exact ⟨Or.inl (mem_pairProduct h'').1, Or.inl (mem_pairProduct h'').2⟩
  · exact ⟨Or.inr (mem_pairProduct h').1, Or.inr (mem_pairProduct h').2⟩

/-- **C6 (amended).** The single-frequency search filters the catalog by
frequency coverage internally: `optimize` runs
`validate_frequency_coverage` first, raises `OptimizationError` when no
component passes, and enumerates only components that pass (every component
in a returned result is a catalog member satisfying the coverage check) —
coverage checking is not left to the caller. -/
theorem C6_internal_coverage_filter (device : SNPFile) (lib : ComponentLibrary)
    (frequencyRange : Option (ℝ × ℝ)) (targetFrequency : Option ℝ) (st : GridState) :
    (lib.validComponents device.frequency = [] →
      gridOptimize device lib .L_SECTION frequencyRange targetFrequency st =
        (.error .noValidComponents, st)) ∧
    (∀ r st', gridOptimize device lib .L_SECTION frequencyRange targetFrequency st =
        (.ok r, st') →
      ∀ c ∈ r.components, c ∈ lib.components ∧ c.validCoverage device.frequency 0.01) := by
  have hopt : gridOptimize device lib .L_SECTION frequencyRange targetFrequency st =
      if lib.validComponents device.frequency = [] then (.error .noValidComponents, st)
      else searchLSection device (gridCaps device lib) (gridInds device lib)
        (frequencyRange.getD device.frequency_range)
        (gridTargetFreq device frequencyRange targetFrequency) st := rfl
  constructor
  · intro h
    rw [hopt, if_pos h]
  · intro r st' h c hc
    by_cases hvalid : lib.validComponents device.frequency = []
    · rw [hopt, if_pos hvalid] at h
      exact absurd (congrArg Prod.fst h) (by simp)
    · rw [hopt, if_neg hvalid] at h
      by_cases hcombos : lSectionCombos (gridCaps device lib) (gridInds device lib) = []
      · have hsearch : searchLSection device (gridCaps device lib) (gridInds device lib)
            (frequencyRange.getD device.frequency_range)
            (gridTargetFreq device frequencyRange targetFrequency) st =
            (match runBest (fun p : ComponentModel × ComponentModel =>
                (evaluate_combination device [p.1, p.2] ["series", "shunt"]
                  (gridTargetFreq device frequencyRange targetFrequency)).2)
                (lSectionCombos (gridCaps device lib) (gridInds device lib)) with
            | none => ((.error (.noSolution "L-section") : Except OptError GridResult),
                (⟨st.search_iterations +
                  (lSectionCombos (gridCaps device lib) (gridInds device lib)).length⟩ :
                  GridState))
            | some (best, _) =>
              (.ok (mkGridResult device [best.1, best.2] ["series", "shunt"]
                (evaluate_combination device [best.1, best.2] ["series", "shunt"]
                  (gridTargetFreq device frequencyRange targetFrequency)).1
                (frequencyRange.getD device.frequency_range)
                (gridTargetFreq device frequencyRange targetFrequency) Topology.L_SECTION
                (st.search_iterations +
                  (lSectionCombos (gridCaps device lib) (gridInds device lib)).length)),
                ⟨st.search_iterations +
                  (lSectionCombos (gridCaps device lib) (gridInds device lib)).length⟩)) :=
          rfl
        rw [hsearch, hcombos] at h
        exact absurd (congrArg Prod.fst h) (by simp [runBest_nil])
      · obtain ⟨pre, b, post, hrb, hsplit, hmin, hpre⟩ := runBest_spec
          (fun p : ComponentModel × ComponentModel =>
            (evaluate_combination device [p.1, p.2] ["series", "shunt"]
              (gridTargetFreq device frequencyRange targetFrequency)).2)
          (lSectionCombos (gridCaps device lib) (gridInds device lib)) hcombos
        have hsearch : searchLSection device (gridCaps device lib) (gridInds device lib)
            (frequencyRange.getD device.frequency_range)
            (gridTargetFreq device frequencyRange targetFrequency) st =
            (.ok (mkGridResult device [b.1, b.2] ["series", "shunt"]
              (evaluate_combination device [b.1, b.2] ["series", "shunt"]
                (gridTargetFreq device frequencyRange targetFrequency)).1
              (frequencyRange.getD device.frequency_range)
              (gridTargetFreq device frequencyRange targetFrequency) Topology.L_SECTION
              (st.search_iterations +
                (lSectionCombos (gridCaps device lib) (gridInds device lib)).length)),
              ⟨st.search_iterations +
                (lSectionCombos (gridCaps device lib) (gridInds device lib)).length⟩) := by
          show (match runBest (fun p : ComponentModel × ComponentModel =>
              (evaluate_combination device [p.1, p.2] ["series", "shunt"]
                (gridTargetFreq device frequencyRange targetFrequency)).2)
              (lSectionCombos (gridCaps device lib) (gridInds device lib)) with
            | none => ((.error (.noSolution "L-section") : Except OptError GridResult),
                (⟨st.search_iterations +
                  (lSectionCombos (gridCaps device lib) (gridInds device lib)).length⟩ :
                  GridState))
            | some (best, _) =>
              (.ok (mkGridResult device [best.1, best.2] ["series", "shunt"]
                (evaluate_combination device [best.1, best.2] ["series", "shunt"]
                  (gridTargetFreq device frequencyRange targetFrequency)).1
                (frequencyRange.getD device.frequency_range)
                (gridTargetFreq device frequencyRange targetFrequency) Topology.L_SECTION
                (st.search_iterations +
                  (lSectionCombos (gridCaps device lib) (gridInds device lib)).length)),
                ⟨st.search_iterations +
                  (lSectionCombos (gridCaps device lib) (gridInds device lib)).length⟩)) = _
          rw [hrb]
        rw [hsearch] at h
        have hr : mkGridResult device [b.1, b.2] ["series", "shunt"]
            (evaluate_combination device [b.1, b.2] ["series", "shunt"]
              (gridTargetFreq device frequencyRange targetFrequency)).1
            (frequencyRange.getD device.frequency_range)
            (gridTargetFreq device frequencyRange targetFrequency) Topology.L_SECTION
            (st.search_iterations +
              (lSectionCombos (gridCaps device lib) (gridInds device lib)).length) = r := by
          have := congrArg Prod.fst h
          simpa using this
        have hcomp : r.components = [b.1, b.2] := by
          rw [← hr]
          rfl
        have hb : b ∈ lSectionCombos (gridCaps device lib) (gridInds device lib) := by
          rw [hsplit]
          exact List.mem_append.mpr (Or.inr (List.mem_cons_self _ _))
        have hmem := mem_lSectionCombos hb
        have hvalidmem : ∀ x : ComponentModel,
            (x ∈ gridCaps device lib ∨ x ∈ gridInds device lib) →
            x ∈ lib.components ∧ x.validCoverage device.frequency 0.01 := by
          intro x hx
          have hxv : x ∈ lib.validComponents device.frequency := by
            rcases hx with hx | hx
            · exact (mem_filterP.mp hx).1
            · exact (mem_filterP.mp hx).1
          exact mem_filterP.mp hxv
        rw [hcomp] at hc
        rcases List.mem_cons.mp hc with rfl | hc'
        · exact hvalidmem _ hmem.1
        rcases List.mem_cons.mp hc' with rfl | hc''
        · exact hvalidmem _ hmem.2
        · simp at hc''

/-- The concrete inputs for C6: a device spanning 1–2 GHz and a catalog
whose only candidate has samples at 1 GHz only (missing 2 GHz). -/
noncomputable def capB : ComponentModel :=
  { frequency := [1e9], s_parameters := { s11 := [(0 : ℂ)] }
    component_type := .capacitor }

/-- The C6 device (two samples: 1 GHz and 2 GHz). -/
noncomputable def devB : SNPFile :=
  { frequency := [1e9, 2e9]
    s_parameters := { s11 := [(0 : ℂ), 0], s12? := some [1, 1]
                      s21? := some [1, 1], s22? := some [0, 0] }
    reference_impedance := 50 }

/-- The C6 catalog. -/
noncomputable def libB : ComponentLibrary := { components := [capB] }

theorem capB_not_covering : ¬ capB.validCoverage devB.frequency 0.01 := by
  intro h
  obtain ⟨g, hg, hlt⟩ := h 2e9 (by simp [devB])
  rw [show capB.frequency = [(1e9 : ℝ)] from rfl, List.mem_singleton] at hg
  subst hg
  norm_num at hlt

theorem validB_empty : libB.validComponents devB.frequency = [] := by
  show filterP _ [capB] = _
  rw [filterP_cons_neg (fun c => c.validCoverage devB.frequency 0.01) capB []
    capB_not_covering]
  rfl

/-- **C6 (counterexample).** With a nonempty catalog whose only candidate
does not span the device's frequency range, the single-frequency search
does not enumerate it and does not hand the decision to the caller: it
rejects the candidate internally and fails with `OptimizationError`
(`"No components have valid frequency coverage"`). -/
theorem C6_internal_coverage_filter_counterexample :
    libB.components ≠ [] ∧ ¬ capB.validCoverage devB.frequency 0.01 ∧
    gridOptimize devB libB .L_SECTION none none ⟨0⟩ =
      (.error .noValidComponents, ⟨0⟩) := by
  refine ⟨by simp [libB], capB_not_covering, ?_⟩
  have hopt : gridOptimize devB libB .L_SECTION none none ⟨0⟩ =
      if libB.validComponents devB.frequency = [] then
        (.error .noValidComponents, ⟨0⟩)
      else searchLSection devB (gridCaps devB libB) (gridInds devB libB)
        (Option.getD none devB.frequency_range)
        (gridTargetFreq devB none none) ⟨0⟩ := rfl
  rw [hopt, if_pos validB_empty]

/-- Witness for C6: the error branch of the amended theorem applied to the
concrete non-covering catalog. -/
theorem C6_internal_coverage_filter_witness :
    gridOptimize devB libB .L_SECTION none (some 1.5e9) ⟨0⟩ =
      (.error .noValidComponents, ⟨0⟩) :=
  (C6_internal_coverage_filter devB libB none (some 1.5e9) ⟨0⟩).1 validB_empty

/-! ## Abbreviations for the values `BandwidthOptimizer.optimize` binds
internally (each definitionally equal to the corresponding `let`). -/

/-- The in-band frequency indices (`np.where` on the range mask, or all). -/
noncomputable def bwFreqIndices (device : SNPFile) (frequencyRange : Option (ℝ × ℝ)) :
    List ℕ :=
  match frequencyRange with
  | some (mn, mx) =>
    filterP (fun i => mn ≤ device.frequency.getD i 0 ∧ device.frequency.getD i 0 ≤ mx)
      (List.range device.frequency.length)
  | none => List.range device.frequency.length

/-- The capacitors whose min/max frequency spans the device's. -/
noncomputable def bwCaps (device : SNPFile) (lib : ComponentLibrary) :
    List ComponentModel :=
  filterP (fun c => listMin c.frequency ≤ listMin device.frequency ∧
    listMax device.frequency ≤ listMax c.frequency) lib.get_capacitors

/-- The inductors whose min/max frequency spans the device's. -/
noncomputable def bwInds (device : SNPFile) (lib : ComponentLibrary) :
    List ComponentModel :=
  filterP (fun c => listMin c.frequency ≤ listMin device.frequency ∧
    listMax device.frequency ≤ listMax c.frequency) lib.get_inductors

/-- The combination list dispatched on the topology string. -/
noncomputable def bwCombos (device : SNPFile) (lib : ComponentLibrary)
    (topology : String) : List (List ComponentModel) :=
  if topology = "L-section" then bwLSectionCombos (bwCaps device lib) (bwInds device lib)
  else if topology = "Pi-section" then
    bwPiSectionCombos (bwCaps device lib) (bwInds device lib)
  else if topology = "T-section" then
    bwTSectionCombos (bwCaps device lib) (bwInds device lib)
  else bwLSectionCombos (bwCaps device lib) (bwInds device lib)

/-- **C4.** For every device, catalog, topology and frequency range (with
nonempty filtered capacitor/inductor lists and at least one in-band index
when a range is given), the bandwidth optimizer scores every enumerated
component combination by the maximum array-path VSWR over the in-band
frequency indices of the cascaded network, and returns the result built
from the first-encountered combination minimising that maximum (every
enumerated combination scores no better, every earlier one strictly
worse). -/
theorem C4_bandwidth_minimax (device : SNPFile) (lib : ComponentLibrary)
    (topology : String) (frequencyRange : Option (ℝ × ℝ))
    (hfi : ¬ (frequencyRange.isSome ∧ bwFreqIndices device frequencyRange = []))
    (hcaps : bwCaps device lib ≠ []) (hinds : bwInds device lib ≠ [])
    (hcombos : bwCombos device lib topology ≠ []) :
    ∃ pre best post r,
      bwCombos device lib topology = pre ++ best :: post ∧
      bwOptimize device lib topology frequencyRange none = .ok r ∧
      r.components = best ∧
      (∀ comps ∈ bwCombos device lib topology,
        bwScore device (bwFreqIndices device frequencyRange) best ≤
          bwScore device (bwFreqIndices device frequencyRange) comps) ∧
      (∀ comps ∈ pre,
        bwScore device (bwFreqIndices device frequencyRange) best <
          bwScore device (bwFreqIndices device frequencyRange) comps) ∧
      (∀ comps : List ComponentModel,
        bwScore device (bwFreqIndices device frequencyRange) comps =
          listMax (vswr_from_s11_arr ((bwFreqIndices device frequencyRange).map
            fun i => (bwBuildCascaded device comps).s11.getD i 0))) := by
  have hbw : bwOptimize device lib topology frequencyRange none =
      if frequencyRange.isSome ∧ bwFreqIndices device frequencyRange = [] then
        .error .noFreqInRange
      else if bwCaps device lib = [] ∨ bwInds device lib = [] then
        .error .baseOptimizerFallback
      else match runBest
          (fun p => bwScore device (bwFreqIndices device frequencyRange) p.2)
          (bwCombos device lib topology).enum with
        | none => .error .baseOptimizerFallback
        | some (best, _) =>
          .ok (mkBWResult device best.2 topology (bwFreqIndices device frequencyRange)
            (best.1 + 1)) := rfl
  have henum : (bwCombos device lib topology).enum ≠ [] := by
    intro h
    apply hcombos
    have := congrArg List.length h
    rw [List.enum_length] at this
    exact List.length_eq_zero.mp this
  obtain ⟨pre₁, b, post₁, hrb, hsplit, hmin, hpre⟩ := runBest_spec
    (fun p : ℕ × List ComponentModel =>
      bwScore device (bwFreqIndices device frequencyRange) p.2)
    (bwCombos device lib topology).enum henum
  refine ⟨pre₁.map Prod.snd, b.2, post₁.map Prod.snd,
    mkBWResult device b.2 topology (bwFreqIndices device frequencyRange) (b.1 + 1),
    ?_, ?_, rfl, ?_, ?_, fun comps => rfl⟩
  · conv_lhs => rw [← List.enum_map_snd (bwCombos device lib topology)]
    rw [hsplit, List.map_append, List.map_cons]
  · rw [hbw, if_neg hfi, if_neg (not_or.mpr ⟨hcaps, hinds⟩), hrb]
  · intro comps hcomps
    have hmem : ∃ p ∈ (bwCombos device lib topology).enum, p.2 = comps := by
      rw [← List.enum_map_snd (bwCombos device lib topology)] at hcomps
      exact List.mem_map.mp hcomps
    obtain ⟨p, hp, hpc⟩ := hmem
    have := hmin p hp
    rw [hpc] at this
    exact this
  · intro comps hcomps
    obtain ⟨p, hp, hpc⟩ := List.mem_map.mp hcomps
    have := hpre p hp
    rw [hpc] at this
    exact this

theorem bwCapsA : bwCaps devA libA = [capA] := by
  have hget : libA.get_capacitors = [capA] := by
    show filterP _ [capA, indA] = _
    rw [filterP_cons_pos (fun c => c.component_type = ComponentType.capacitor) capA [indA]
        (show capA.component_type = ComponentType.capacitor from rfl),
      filterP_cons_neg (fun c => c.component_type = ComponentType.capacitor) indA []
        (fun h => ComponentType.noConfusion h)]
    rfl
  unfold bwCaps
  rw [hget, filterP_cons_pos _ capA [] ⟨le_of_eq rfl, le_of_eq rfl⟩]
  rfl

theorem bwIndsA : bwInds devA libA = [indA] := by
  have hget : libA.get_inductors = [indA] := by
    show filterP _ [capA, indA] = _
    rw [filterP_cons_neg (fun c => c.component_type = ComponentType.inductor) capA [indA]
        (fun h => ComponentType.noConfusion h),
      filterP_cons_pos (fun c => c.component_type = ComponentType.inductor) indA []
        (show indA.component_type = ComponentType.inductor from rfl)]
    rfl
  unfold bwInds
  rw [hget, filterP_cons_pos _ indA [] ⟨le_of_eq rfl, le_of_eq rfl⟩]
  rfl

theorem bwCombosA : bwCombos devA libA "L-section" = [[capA, indA], [indA, capA]] := by
  unfold bwCombos
  rw [if_pos rfl, bwCapsA, bwIndsA]
  rfl

/-- Witness for C4: on the concrete catalog the L-section bandwidth search
returns a result whose winning combination is one of the two enumerated
combinations. -/
theorem C4_bandwidth_minimax_witness :
    ∃ r, bwOptimize devA libA "L-section" none none = .ok r ∧
      r.components ∈ bwCombos devA libA "L-section" := by
  obtain ⟨pre, best, post, r, hsplit, hok, hcomp, hmin, hpre, hscore⟩ :=
    C4_bandwidth_minimax devA libA "L-section" none
      (by simp)
      (by rw [bwCapsA]; simp)
      (by rw [bwIndsA]; simp)
      (by rw [bwCombosA]; simp)
  refine ⟨r, hok, ?_⟩
  rw [hcomp, hsplit]
  exact List.mem_append.mpr (Or.inr (List.mem_cons_self _ _))

/-- "Impedance within tolerance of target" on a possibly-infinite impedance
(`none` = `complex(inf, 0)`, which is never within tolerance). -/
def impWithin (imp : Option ℂ) (target tol : ℝ) : Prop :=
  match imp with
  | some Z => Complex.abs (Z - (target : ℂ)) ≤ tol
  | none => False

theorem mkGridResult_success_iff (device : SNPFile) (comps : List ComponentModel)
    (order : List String) (casc : SPDict) (fr : ℝ × ℝ) (tf : ℝ) (topo : Topology)
    (iters : ℕ) :
    ((mkGridResult device comps order casc fr tf topo iters).success ↔
      (impWithin (mkGridResult device comps order casc fr tf topo iters).impedance_at_center
        device.reference_impedance 10 ∨
       optLT (mkGridResult device comps order casc fr tf topo iters).vswr_at_center 2)) := by
  simp only [mkGridResult]
  by_cases h : casc.s11 = []
  · rw [if_pos h, if_pos h, if_pos h]
    simp [impWithin, optLT]
  · rw [if_neg h, if_neg h, if_neg h]
    exact Iff.rfl

theorem mkBWResult_success_iff (device : SNPFile) (comps : List ComponentModel)
    (topology : String) (freqIndices : List ℕ) (iters : ℕ) :
    ((mkBWResult device comps topology freqIndices iters).success ↔
      optLE (mkBWResult device comps topology freqIndices iters).vswr_at_center 2) :=
  Iff.rfl

theorem searchLSection_ok_success (device : SNPFile) (caps inds : List ComponentModel)
    (freqRange : ℝ × ℝ) (targetFreq : ℝ) (st : GridState) (r : GridResult)
    (st' : GridState)
    (h : searchLSection device caps inds freqRange targetFreq st = (.ok r, st')) :
    (r.success ↔ (impWithin r.impedance_at_center device.reference_impedance 10 ∨
      optLT r.vswr_at_center 2)) := by
  have hs : searchLSection device caps inds freqRange targetFreq st =
      (match runBest (fun p => (evaluate_combination device [p.1, p.2]
          ["series", "shunt"] targetFreq).2) (lSectionCombos caps inds) with
       | none => ((.error (.noSolution "L-section") : Except OptError GridResult),
           (⟨st.search_iterations + (lSectionCombos caps inds).length⟩ : GridState))
       | some (best, _) =>
         (.ok (mkGridResult device [best.1, best.2] ["series", "shunt"]
           (evaluate_combination device [best.1, best.2] ["series", "shunt"] targetFreq).1
           freqRange targetFreq Topology.L_SECTION
           (st.search_iterations + (lSectionCombos caps inds).length)),
           ⟨st.search_iterations + (lSectionCombos caps inds).length⟩)) := rfl
  rw [hs] at h
  split at h
  · injection h with h1 h2
    exact absurd h1 (by simp)
  · injection h with h1 h2
    injection h1 with h3
    rw [← h3]
    exact mkGridResult_success_iff device _ _ _ _ _ _ _

theorem searchPiSection_ok_success (device : SNPFile) (caps inds : List ComponentModel)
    (freqRange : ℝ × ℝ) (targetFreq : ℝ) (st : GridState) (r : GridResult)
    (st' : GridState)
    (h : searchPiSection device caps inds freqRange targetFreq st = (.ok r, st')) :
    (r.success ↔ (impWithin r.impedance_at_center device.reference_impedance 10 ∨
      optLT r.vswr_at_center 2)) := by
  have hs : searchPiSection device caps inds freqRange targetFreq st =
      (match runBest (fun p => (evaluate_combination device [p.1, p.2]
          ["shunt", "series"] targetFreq).2) (piSectionCombos caps inds) with
       | none => ((.error (.noSolution "Pi-section") : Except OptError GridResult),
           (⟨st.search_iterations + (piSectionCombos caps inds).length⟩ : GridState))
       | some (best, _) =>
         (.ok (mkGridResult device [best.1, best.2] ["shunt", "series"]
           (evaluate_combination device [best.1, best.2] ["shunt", "series"] targetFreq).1
           freqRange targetFreq Topology.PI_SECTION
           (st.search_iterations + (piSectionCombos caps inds).length)),
           ⟨st.search_iterations + (piSectionCombos caps inds).length⟩)) := rfl
  rw [hs] at h
  split at h
  · injection h with h1 h2
    exact absurd h1 (by simp)
  · injection h with h1 h2
    injection h1 with h3
    rw [← h3]
    exact mkGridResult_success_iff device _ _ _ _ _ _ _

theorem searchTSection_ok_success (device : SNPFile) (caps inds : List ComponentModel)
    (freqRange : ℝ × ℝ) (targetFreq : ℝ) (st : GridState) (r : GridResult)
    (st' : GridState)
    (h : searchTSection device caps inds freqRange targetFreq st = (.ok r, st')) :
    (r.success ↔ (impWithin r.impedance_at_center device.reference_impedance 10 ∨
      optLT r.vswr_at_center 2)) := by
  have hs : searchTSection device caps inds freqRange targetFreq st =
      (match runBest (fun p => (evaluate_combination device [p.1, p.2.1, p.2.2]
          ["series", "shunt", "series"] targetFreq).2) (tSectionCombos caps inds) with
       | none => ((.error (.noSolution "T-section") : Except OptError GridResult),
           (⟨st.search_iterations + (tSectionCombos caps inds).length⟩ : GridState))
       | some (best, _) =>
         (.ok (mkGridResult device [best.1, best.2.1, best.2.2]
           ["series", "shunt", "series"]
           (evaluate_combination device [best.1, best.2.1, best.2.2]
             ["series", "shunt", "series"] targetFreq).1
           freqRange targetFreq Topology.T_SECTION
           (st.search_iterations + (tSectionCombos caps inds).length)),
           ⟨st.search_iterations + (tSectionCombos caps inds).length⟩)) := rfl
  rw [hs] at h
  split at h
  · injection h with h1 h2
    exact absurd h1 (by simp)
  · injection h with h1 h2
    injection h1 with h3
    rw [← h3]
    exact mkGridResult_success_iff device _ _ _ _ _ _ _

/-- **C9 (amended).** The two search paths use different success rules.
Single-frequency path: `success` holds iff the impedance at the centre
sample is within 10 Ω of the reference impedance OR the VSWR there is
strictly below 2 (`z_error <= 10.0 or vswr < 2.0`).  Bandwidth path:
`success` holds iff the VSWR at the middle frequency index is at most 2
(`vswr_at_center <= 2.0`) — the impedance criterion is not consulted. -/
theorem C9_success_flag (device : SNPFile) (lib : ComponentLibrary) :
    (∀ (topology : Topology) (frequencyRange : Option (ℝ × ℝ))
        (targetFrequency : Option ℝ) (st : GridState) (r : GridResult)
        (st' : GridState),
      gridOptimize device lib topology frequencyRange targetFrequency st =
        (.ok r, st') →
      (r.success ↔ (impWithin r.impedance_at_center device.reference_impedance 10 ∨
        optLT r.vswr_at_center 2))) ∧
    (∀ (topology : String) (frequencyRange : Option (ℝ × ℝ))
        (maxIterations : Option ℕ) (r : BWResult),
      bwOptimize device lib topology frequencyRange maxIterations = .ok r →
      (r.success ↔ optLE r.vswr_at_center 2)) := by
  constructor
  · intro topology frequencyRange targetFrequency st r st' h
    cases topology with
    | L_SECTION =>
      have hopt : gridOptimize device lib .L_SECTION frequencyRange targetFrequency st =
          if lib.validComponents device.frequency = [] then
            (.error .noValidComponents, st)
          else searchLSection device (gridCaps device lib) (gridInds device lib)
            (frequencyRange.getD device.frequency_range)
            (gridTargetFreq device frequencyRange targetFrequency) st := rfl
      rw [hopt] at h
      by_cases hvalid : lib.validComponents device.frequency = []
      · rw [if_pos hvalid] at h
        injection h with h1 h2
        exact absurd h1 (by simp)
      · rw [if_neg hvalid] at h
        exact searchLSection_ok_success device _ _ _ _ _ r st' h
    | PI_SECTION =>
      have hopt : gridOptimize device lib .PI_SECTION frequencyRange targetFrequency st =
          if lib.validComponents device.frequency = [] then
            (.error .noValidComponents, st)
          else searchPiSection device (gridCaps device lib) (gridInds device lib)
            (frequencyRange.getD device.frequency_range)
            (gridTargetFreq device frequencyRange targetFrequency) st := rfl
      rw [hopt] at h
      by_cases hvalid : lib.validComponents device.frequency = []
      · rw [if_pos hvalid] at h
        injection h with h1 h2
        exact absurd h1 (by simp)
      · rw [if_neg hvalid] at h
        exact searchPiSection_ok_success device _ _ _ _ _ r st' h
    | T_SECTION =>
      have hopt : gridOptimize device lib .T_SECTION frequencyRange targetFrequency st =
          if lib.validComponents device.frequency = [] then
            (.error .noValidComponents, st)
          else searchTSection device (gridCaps device lib) (gridInds device lib)
            (frequencyRange.getD device.frequency_range)
            (gridTargetFreq device frequencyRange targetFrequency) st := rfl
      rw [hopt] at h
      by_cases hvalid : lib.validComponents device.frequency = []
      · rw [if_pos hvalid] at h
        injection h with h1 h2
        exact absurd h1 (by simp)
      · rw [if_neg hvalid] at h
        exact searchTSection_ok_success device _ _ _ _ _ r st' h
    | CUSTOM =>
      have hopt : gridOptimize device lib .CUSTOM frequencyRange targetFrequency st =
          if lib.validComponents device.frequency = [] then
            (.error .noValidComponents, st)
          else (.error .unsupportedTopology, st) := rfl
      rw [hopt] at h
      by_cases hvalid : lib.validComponents device.frequency = []
      · rw [if_pos hvalid] at h
        injection h with h1 h2
        exact absurd h1 (by simp)
      · rw [if_neg hvalid] at h
        injection h with h1 h2
        exact absurd h1 (by simp)
  · intro topology frequencyRange maxIterations r h
    have hbw : bwOptimize device lib topology frequencyRange maxIterations =
        if frequencyRange.isSome ∧ bwFreqIndices device frequencyRange = [] then
          .error .noFreqInRange
        else if bwCaps device lib = [] ∨ bwInds device lib = [] then
          .error .baseOptimizerFallback
        else match runBest
            (fun p => bwScore device (bwFreqIndices device frequencyRange) p.2)
            ((match maxIterations with
              | some m => if m = 0 then bwCombos device lib topology
                  else (bwCombos device lib topology).take m
              | none => bwCombos device lib topology)).enum with
          | none => .error .baseOptimizerFallback
          | some (best, _) =>
            .ok (mkBWResult device best.2 topology (bwFreqIndices device frequencyRange)
              (best.1 + 1)) := rfl
    rw [hbw] at h
    split at h
    · exact absurd h (by simp)
    · split at h
      · exact absurd h (by simp)
      · split at h
        · exact absurd h (by simp)
        · rw [Except.ok.injEq] at h
          rw [← h]
          exact mkBWResult_success_iff device _ _ _ _

/-- `s_to_abcd_pt` with the clamp known inactive: the denominator is
exactly `2*s21`. -/
theorem s_to_abcd_pt_off (s : SQuad) (z0 : ℝ)
    (h : (1e-12 : ℝ) ≤ Complex.abs (2 * s.s21)) :
    s_to_abcd_pt s z0 =
      { A := ((1 + s.s11) * (1 - s.s22) + s.s12 * s.s21) / (2 * s.s21)
        B := (z0 : ℂ) * ((1 + s.s11) * (1 + s.s22) - s.s12 * s.s21) / (2 * s.s21)
        C := (1 / (z0 : ℂ)) * ((1 - s.s11) * (1 - s.s22) - s.s12 * s.s21) / (2 * s.s21)
        D := ((1 - s.s11) * (1 + s.s22) + s.s12 * s.s21) / (2 * s.s21) } := by
  unfold s_to_abcd_pt
  rw [clampC_of_ge h]

/-- `abcd_to_s_pt` with the clamp known inactive: the denominator is
exactly `A + B/z0 + C*z0 + D`. -/
theorem abcd_to_s_pt_off (m : ABCDMat) (z0 : ℝ)
    (h : (1e-12 : ℝ) ≤ Complex.abs (m.A + m.B / (z0 : ℂ) + m.C * (z0 : ℂ) + m.D)) :
    abcd_to_s_pt m z0 =
      { s11 := (m.A + m.B / (z0 : ℂ) - m.C * (z0 : ℂ) - m.D) /
          (m.A + m.B / (z0 : ℂ) + m.C * (z0 : ℂ) + m.D)
        s12 := 2 * (m.A * m.D - m.B * m.C) /
          (m.A + m.B / (z0 : ℂ) + m.C * (z0 : ℂ) + m.D)
        s21 := 2 / (m.A + m.B / (z0 : ℂ) + m.C * (z0 : ℂ) + m.D)
        s22 := (-m.A + m.B / (z0 : ℂ) - m.C * (z0 : ℂ) + m.D) /
          (m.A + m.B / (z0 : ℂ) + m.C * (z0 : ℂ) + m.D) } := by
  unfold abcd_to_s_pt
  rw [clampC_of_ge h]

/-- `np.argmin` of a one-element array is index 0. -/
theorem argminList_singleton (x : ℝ) : argminList [x] = 0 := by
  show (if x < x then ((0 : ℕ), x) else ((0 : ℕ), x)).1 = 0
  rw [ite_self]

/-- When the score is constant over the list, the best-so-far fold keeps
the very first candidate (strict-improvement comparison). -/
theorem runBest_const_head (f : α → ℝ) (a : α) (t : List α)
    (hconst : ∀ x ∈ a :: t, f x = f a) :
    runBest f (a :: t) = some (a, f a) := by
  obtain ⟨pre, b, post, hrb, hsplit, hmin, hpre⟩ := runBest_spec f (a :: t) (by simp)
  cases pre with
  | nil =>
    rw [List.nil_append] at hsplit
    injection hsplit with h1 h2
    rw [hrb, ← h1]
  | cons y ys =>
    exfalso
    have hy : y ∈ y :: ys := List.mem_cons_self _ _
    have hlt := hpre y hy
    have hya : f y = f a := hconst y (by
      rw [hsplit]
      exact List.mem_append.mpr (Or.inl hy))
    have hba : f b = f a := hconst b (by
      rw [hsplit]
      exact List.mem_append.mpr (Or.inr (List.mem_cons_self _ _)))
    rw [hya, hba] at hlt
    exact lt_irrefl _ hlt

/-- The identity device converts to the identity ABCD matrix. -/
theorem ptIdentityA : s_to_abcd_pt ⟨0, 1, 1, 0⟩ 50 = identityABCD := by
  rw [s_to_abcd_pt_off ⟨0, 1, 1, 0⟩ 50 (by
    show (1e-12 : ℝ) ≤ Complex.abs (2 * 1)
    rw [mul_one, Complex.abs_two]
    norm_num)]
  unfold identityABCD
  refine ABCDMat.ext ?_ ?_ ?_ ?_ <;> norm_num

/-- The series conversion of the component S-parameters `(5, -4, -4, 5)`. -/
theorem ptSeriesA : s_to_abcd_pt ⟨5, -4, -4, 5⟩ 50 = ⟨1, -125, 0, 1⟩ := by
  rw [s_to_abcd_pt_off ⟨5, -4, -4, 5⟩ 50 (by
    show (1e-12 : ℝ) ≤ Complex.abs (2 * (-4))
    rw [show ((2 : ℂ) * (-4)) = -8 by norm_num, AbsoluteValue.map_neg,
      show ((8 : ℂ)) = ((8 : ℝ) : ℂ) by norm_num, Complex.abs_ofReal,
      show |(8 : ℝ)| = 8 from abs_of_nonneg (by norm_num)]
    norm_num)]
  refine ABCDMat.ext ?_ ?_ ?_ ?_ <;> norm_num

/-- The shunt conversion of the component S-parameters (`s11 = 5`). -/
theorem ptShuntA : shunt_pt 5 50 = ⟨1, 0, -(1/75), 1⟩ := by
  simp only [shunt_pt]
  have h1 : clampC 1e-12 (1 - (5 : ℂ)) = -4 := by
    rw [show ((1 : ℂ) - 5) = -4 by norm_num]
    exact clampC_of_ge (by
      rw [AbsoluteValue.map_neg, show ((4 : ℂ)) = ((4 : ℝ) : ℂ) by norm_num,
        Complex.abs_ofReal, show |(4 : ℝ)| = 4 from abs_of_nonneg (by norm_num)]
      norm_num)
  rw [h1]
  have h2 : ((50 : ℝ) : ℂ) * (1 + 5) / (-4 : ℂ) = -75 := by
    push_cast
    norm_num
  rw [h2]
  have h3 : clampC 1e-12 ((-75 : ℂ)) = -75 := clampC_of_ge (by
    rw [AbsoluteValue.map_neg, show ((75 : ℂ)) = ((75 : ℝ) : ℂ) by norm_num,
      Complex.abs_ofReal, show |(75 : ℝ)| = 75 from abs_of_nonneg (by norm_num)]
    norm_num)
  rw [h3]
  refine ABCDMat.ext ?_ ?_ ?_ ?_ <;> norm_num

/-- Converting the cascaded ABCD product back to S-parameters gives
`s11 = -1/3` at the single sample. -/
theorem ptFinalA : abcd_to_s_pt ⟨8/3, -125, -(1/75), 1⟩ 50 = ⟨-(1/3), 4, 4, -7⟩ := by
  rw [abcd_to_s_pt_off ⟨8/3, -125, -(1/75), 1⟩ 50 (by
    show (1e-12 : ℝ) ≤
      Complex.abs (8/3 + (-125) / ((50 : ℝ) : ℂ) + (-(1/75)) * ((50 : ℝ) : ℂ) + 1)
    rw [show ((8/3 : ℂ) + (-125) / ((50 : ℝ) : ℂ) + (-(1/75)) * ((50 : ℝ) : ℂ) + 1) =
        ((1/2 : ℝ) : ℂ) by push_cast; norm_num, Complex.abs_ofReal,
      show |(1/2 : ℝ)| = 1/2 from abs_of_nonneg (by norm_num)]
    norm_num)]
  refine SQuad.ext ?_ ?_ ?_ ?_ <;> (push_cast; norm_num)

/-- The cascaded network the L-section search builds for the winning pair
of the concrete scenario. -/
noncomputable def cascA : SPDict :=
  (evaluate_combination devA [capA, indA] ["series", "shunt"]
    (gridTargetFreq devA none (some 2e9))).1

/-- The cascade evaluates to the ABCD product `[[8/3, -125], [-1/75, 1]]`
converted back to S-parameters. -/
theorem cascA_eq : cascA = abcd_to_s [(⟨8/3, -125, -(1/75), 1⟩ : ABCDMat)] 50 := by
  show cascade_with_topology devA.s_parameters [spA, spA] ["series", "shunt"]
      devA.frequency 50 [[(2e9 : ℝ)], [(2e9 : ℝ)]] = _
  unfold cascade_with_topology
  congr 1
  rw [show (([spA, spA].zip ["series", "shunt"]).enum) =
      [(0, (spA, "series")), (1, (spA, "shunt"))] from rfl]
  rw [List.foldl_cons, List.foldl_cons, List.foldl_nil]
  show matrix_multiply
      (matrix_multiply (s_to_abcd devA.s_parameters 50)
        (cascadeComp devA.frequency 50 [[(2e9 : ℝ)], [(2e9 : ℝ)]] 0 spA "series"))
      (cascadeComp devA.frequency 50 [[(2e9 : ℝ)], [(2e9 : ℝ)]] 1 spA "shunt") =
    [(⟨8/3, -125, -(1/75), 1⟩ : ABCDMat)]
  have hdev : s_to_abcd devA.s_parameters 50 = [identityABCD] := by
    show [s_to_abcd_pt ⟨0, 1, 1, 0⟩ 50] = _
    rw [ptIdentityA]
  have hser : cascadeComp devA.frequency 50 [[(2e9 : ℝ)], [(2e9 : ℝ)]] 0 spA "series" =
      [(⟨1, -125, 0, 1⟩ : ABCDMat)] := by
    show [s_to_abcd_pt ⟨5, -4, -4, 5⟩ 50] = _
    rw [ptSeriesA]
  have hsh : cascadeComp devA.frequency 50 [[(2e9 : ℝ)], [(2e9 : ℝ)]] 1 spA "shunt" =
      [(⟨1, 0, -(1/75), 1⟩ : ABCDMat)] := by
    show [shunt_pt 5 50] = _
    rw [ptShuntA]
  rw [hdev, hser, hsh]
  show [abcdMul (abcdMul identityABCD ⟨1, -125, 0, 1⟩) ⟨1, 0, -(1/75), 1⟩] = _
  have hmul : abcdMul (abcdMul identityABCD ⟨1, -125, 0, 1⟩) ⟨1, 0, -(1/75), 1⟩ =
      ⟨8/3, -125, -(1/75), 1⟩ := by
    refine ABCDMat.ext ?_ ?_ ?_ ?_ <;> norm_num [abcdMul, identityABCD]
  rw [hmul]

/-- The cascaded `S11` array of the winning combination is `[-1/3]`. -/
theorem cascA_s11 : cascA.s11 = [(-(1/3) : ℂ)] := by
  rw [cascA_eq]
  show [(abcd_to_s_pt ⟨8/3, -125, -(1/75), 1⟩ 50).s11] = _
  rw [ptFinalA]

/-- The result the concrete L-section run returns. -/
noncomputable def rA : GridResult :=
  mkGridResult devA [capA, indA] ["series", "shunt"] cascA
    (Option.getD none devA.frequency_range) (gridTargetFreq devA none (some 2e9))
    Topology.L_SECTION 4

/-- The centre index resolved on the concrete single-sample device. -/
theorem idxA : argminList (devA.frequency.map
    fun f => |f - gridTargetFreq devA none (some 2e9)|) = 0 := by
  show argminList [|(2e9 : ℝ) - 2e9|] = 0
  exact argminList_singleton _

/-- The `vswr_at_center` field of a grid result, written out. -/
theorem mkGridResult_vswr_eq (device : SNPFile) (comps : List ComponentModel)
    (order : List String) (casc : SPDict) (fr : ℝ × ℝ) (tf : ℝ) (topo : Topology)
    (iters : ℕ) :
    (mkGridResult device comps order casc fr tf topo iters).vswr_at_center =
      (if casc.s11 = [] then none
       else if 1 ≤ Complex.abs (casc.s11.getD
           (argminList (device.frequency.map fun f => |f - tf|)) 0) then none
       else some ((1 + Complex.abs (casc.s11.getD
           (argminList (device.frequency.map fun f => |f - tf|)) 0)) /
         (1 - Complex.abs (casc.s11.getD
           (argminList (device.frequency.map fun f => |f - tf|)) 0)))) := rfl

/-- The `impedance_at_center` field of a grid result, written out. -/
theorem mkGridResult_imp_eq (device : SNPFile) (comps : List ComponentModel)
    (order : List String) (casc : SPDict) (fr : ℝ × ℝ) (tf : ℝ) (topo : Topology)
    (iters : ℕ) :
    (mkGridResult device comps order casc fr tf topo iters).impedance_at_center =
      (if casc.s11 = [] then none
       else if Complex.abs (1 - casc.s11.getD
           (argminList (device.frequency.map fun f => |f - tf|)) 0) < 1e-10 then none
       else some ((device.reference_impedance : ℂ) * (1 + casc.s11.getD
           (argminList (device.frequency.map fun f => |f - tf|)) 0) /
         (1 - casc.s11.getD
           (argminList (device.frequency.map fun f => |f - tf|)) 0))) := rfl

/-- The concrete result's VSWR at the centre sample is exactly 2. -/
theorem rA_vswr : rA.vswr_at_center = some 2 := by
  rw [show rA.vswr_at_center = (mkGridResult devA [capA, indA] ["series", "shunt"] cascA
      (Option.getD none devA.frequency_range) (gridTargetFreq devA none (some 2e9))
      Topology.L_SECTION 4).vswr_at_center from rfl,
    mkGridResult_vswr_eq, cascA_s11, idxA]
  rw [show ([(-(1/3) : ℂ)].getD 0 0) = -(1/3) from rfl]
  have habs : Complex.abs (-(1/3) : ℂ) = 1/3 := by
    rw [AbsoluteValue.map_neg, show ((1/3 : ℂ)) = ((1/3 : ℝ) : ℂ) by norm_num,
      Complex.abs_ofReal]
    exact abs_of_nonneg (by norm_num)
  rw [habs, if_neg (by simp : ¬ ([(-(1/3) : ℂ)] = ([] : List ℂ))),
    if_neg (by norm_num : ¬ ((1 : ℝ) ≤ 1/3))]
  norm_num

/-- The concrete result's impedance at the centre sample is exactly 25 Ω. -/
theorem rA_imp : rA.impedance_at_center = some 25 := by
  rw [show rA.impedance_at_center = (mkGridResult devA [capA, indA] ["series", "shunt"]
      cascA (Option.getD none devA.frequency_range)
      (gridTargetFreq devA none (some 2e9))
      Topology.L_SECTION 4).impedance_at_center from rfl,
    mkGridResult_imp_eq, cascA_s11, idxA]
  rw [show ([(-(1/3) : ℂ)].getD 0 0) = -(1/3) from rfl]
  have habs : Complex.abs (1 - (-(1/3) : ℂ)) = 4/3 := by
    rw [show ((1 : ℂ) - (-(1/3))) = ((4/3 : ℝ) : ℂ) by push_cast; norm_num,
      Complex.abs_ofReal]
    exact abs_of_nonneg (by norm_num)
  rw [if_neg (by simp : ¬ ([(-(1/3) : ℂ)] = ([] : List ℂ))),
    habs, if_neg (by norm_num : ¬ ((4/3 : ℝ) < 1e-10)),
    show devA.reference_impedance = (50 : ℝ) from rfl]
  simp only [Option.some.injEq]
  push_cast
  norm_num

/-- The concrete result's success flag is down: the impedance error is 25 Ω
(beyond the 10 Ω tolerance) and the VSWR is not *strictly* below 2. -/
theorem rA_not_success : ¬ rA.success := by
  have hiff : rA.success ↔ (impWithin rA.impedance_at_center devA.reference_impedance 10 ∨
      optLT rA.vswr_at_center 2) :=
    mkGridResult_success_iff devA [capA, indA] ["series", "shunt"] cascA
      (Option.getD none devA.frequency_range) (gridTargetFreq devA none (some 2e9))
      Topology.L_SECTION 4
  intro hs
  rcases hiff.mp hs with h1 | h1
  · rw [rA_imp] at h1
    have h2 : Complex.abs ((25 : ℂ) - ((50 : ℝ) : ℂ)) ≤ 10 := h1
    rw [show ((25 : ℂ) - ((50 : ℝ) : ℂ)) = ((-25 : ℝ) : ℂ) by push_cast; norm_num,
      Complex.abs_ofReal, abs_neg,
      show |(25 : ℝ)| = 25 from abs_of_nonneg (by norm_num)] at h2
    norm_num at h2
  · rw [rA_vswr] at h1
    have h2 : (2 : ℝ) < 2 := h1
    exact lt_irrefl _ h2

/-- The concrete L-section run returns `rA` after 4 iterations. -/
theorem gridRunA :
    gridOptimize devA libA .L_SECTION none (some 2e9) ⟨0⟩ = (.ok rA, ⟨4⟩) := by
  have hvalidA : libA.validComponents devA.frequency ≠ [] := by
    rw [validA]
    simp
  have hopt : gridOptimize devA libA .L_SECTION none (some 2e9) ⟨0⟩ =
      if libA.validComponents devA.frequency = [] then (.error .noValidComponents, ⟨0⟩)
      else searchLSection devA (gridCaps devA libA) (gridInds devA libA)
        (Option.getD none devA.frequency_range)
        (gridTargetFreq devA none (some 2e9)) ⟨0⟩ := rfl
  rw [hopt, if_neg hvalidA]
  have hsearch : searchLSection devA (gridCaps devA libA) (gridInds devA libA)
      (Option.getD none devA.frequency_range)
      (gridTargetFreq devA none (some 2e9)) ⟨0⟩ =
      (match runBest (fun p : ComponentModel × ComponentModel =>
          (evaluate_combination devA [p.1, p.2] ["series", "shunt"]
            (gridTargetFreq devA none (some 2e9))).2)
          (lSectionCombos (gridCaps devA libA) (gridInds devA libA)) with
      | none => ((.error (.noSolution "L-section") : Except OptError GridResult),
          (⟨0 + (lSectionCombos (gridCaps devA libA) (gridInds devA libA)).length⟩ :
            GridState))
      | some (best, _) =>
        (.ok (mkGridResult devA [best.1, best.2] ["series", "shunt"]
          (evaluate_combination devA [best.1, best.2] ["series", "shunt"]
            (gridTargetFreq devA none (some 2e9))).1
          (Option.getD none devA.frequency_range)
          (gridTargetFreq devA none (some 2e9)) Topology.L_SECTION
          (0 + (lSectionCombos (gridCaps devA libA) (gridInds devA libA)).length)),
          ⟨0 + (lSectionCombos (gridCaps devA libA) (gridInds devA libA)).length⟩)) := rfl
  rw [hsearch]
  have hconst : ∀ x ∈ [(capA, indA), (indA, capA), (capA, capA), (indA, indA)],
      (fun p : ComponentModel × ComponentModel =>
        (evaluate_combination devA [p.1, p.2] ["series", "shunt"]
          (gridTargetFreq devA none (some 2e9))).2) x =
      (fun p : ComponentModel × ComponentModel =>
        (evaluate_combination devA [p.1, p.2] ["series", "shunt"]
          (gridTargetFreq devA none (some 2e9))).2) (capA, indA) := by
    intro x hx
    simp only [List.mem_cons, List.not_mem_nil, or_false] at hx
    rcases hx with rfl | rfl | rfl | rfl <;> rfl
  have hrun : runBest (fun p : ComponentModel × ComponentModel =>
      (evaluate_combination devA [p.1, p.2] ["series", "shunt"]
        (gridTargetFreq devA none (some 2e9))).2)
      (lSectionCombos (gridCaps devA libA) (gridInds devA libA)) =
      some ((capA, indA),
        (evaluate_combination devA [capA, indA] ["series", "shunt"]
          (gridTargetFreq devA none (some 2e9))).2) := by
    rw [combosA]
    exact runBest_const_head _ (capA, indA) [(indA, capA), (capA, capA), (indA, indA)]
      hconst
  rw [hrun, combosA]
  rfl

/-- **C9 counterexample.** The original claim ("for every search result,
success holds iff impedance within tolerance OR VSWR below the threshold,
either criterion alone certifying a match — `isMatched` uses VSWR ≤
threshold") fails on the single-frequency path: the concrete L-section run
returns a result with impedance 25 Ω (error 25 > 10) and VSWR exactly 2,
so `metrics.is_matched` (spec §4.4) accepts it through the VSWR ≤ 2
criterion, yet `success` is down because the code demands `vswr < 2.0`
strictly. -/
theorem C9_success_flag_counterexample :
    gridOptimize devA libA .L_SECTION none (some 2e9) ⟨0⟩ = (.ok rA, ⟨4⟩) ∧
    rA.impedance_at_center = some 25 ∧
    rA.vswr_at_center = some 2 ∧
    is_matched 25 devA.reference_impedance 10 2 ∧
    optLE rA.vswr_at_center 2 ∧
    ¬ rA.success := by
  refine ⟨gridRunA, rA_imp, rA_vswr, ?_, ?_, rA_not_success⟩
  · show Complex.abs ((25 : ℂ) - (devA.reference_impedance : ℂ)) ≤ 10 ∨
      optLE (vswr_scalar 25 devA.reference_impedance) 2
    right
    have hg : reflection_coefficient 25 devA.reference_impedance = 1/3 := by
      show Complex.abs (((25 : ℂ) - ((50 : ℝ) : ℂ)) / ((25 : ℂ) + ((50 : ℝ) : ℂ))) = 1/3
      rw [show (((25 : ℂ) - ((50 : ℝ) : ℂ)) / ((25 : ℂ) + ((50 : ℝ) : ℂ))) =
          ((-(1/3) : ℝ) : ℂ) by push_cast; norm_num, Complex.abs_ofReal, abs_neg]
      exact abs_of_nonneg (by norm_num)
    unfold vswr_scalar
    rw [hg, if_neg (by
      rw [show ((1 : ℝ) - 1/3) = 2/3 by norm_num,
        show |(2/3 : ℝ)| = 2/3 from abs_of_nonneg (by norm_num)]
      norm_num : ¬ (|1 - (1/3 : ℝ)| < 1e-10))]
    show (1 + (1/3 : ℝ)) / (1 - 1/3) ≤ 2
    norm_num
  · rw [rA_vswr]
    show (2 : ℝ) ≤ 2
    exact le_refl 2

/-- Witness for C9: the amended success rule, instantiated on the concrete
single-frequency run. -/
theorem C9_success_flag_witness :
    rA.success ↔ (impWithin rA.impedance_at_center devA.reference_impedance 10 ∨
      optLT rA.vswr_at_center 2) :=
  (C9_success_flag devA libA).1 Topology.L_SECTION none (some 2e9) ⟨0⟩ rA ⟨4⟩ gridRunA

end SnpTool
